import Mathlib

/-!
Verification of the S.A.V.E disaster-response backend (`backend/app`).

This file shallowly embeds the parts of the code the verified properties
talk about: the negotiation engine (`negotiation/negotiation_engine.py`),
the constraint checker (`optimization/constraints.py`), the hospital,
ambulance, supply and government agents (`agents/*.py`), the failure
handler (`utils/failure_handler.py`) and the simulator step loop
(`simulation/simulator.py`).

Embedding conventions:
* Python floats are modelled as exact rationals (`ℚ`); the float literals
  appearing in the source (0.4, 0.15, ...) are all exactly representable.
* The Euclidean `math.sqrt` distance, Python's `round(x, 1)`, `round(x)`
  and `str(...)` float formatting are irrational / representation-dependent,
  so they are abstracted into an `Oracles` bundle passed explicitly; every
  theorem quantifies over the bundle, so nothing proved depends on the
  concrete metric or rounding.
* `datetime.now()` is modelled as an explicit `now : String` argument
  (a clock oracle); two real invocations of the same Python method are two
  applications with possibly different `now` values.
* Python `dict`s are insertion-ordered association lists: `lookupA` is
  `dict.get` (first match), `setA` is `d[k] = v` (overwrite in place,
  else append), `updateA` mutates an existing entry in place.
* Python's `sorted`/`list.sort` is a stable sort; `pySorted` is a stable
  insertion sort, which produces the identical list.
* Logging, metrics, timeline and explainer bookkeeping, and the various
  `last_updated` fields are omitted: they are write-only sinks that no
  modelled value (in particular no step report field) ever reads.
-/

namespace SAVE

/- The Batteries rational-number operations are `@[irreducible]`, which
blocks `decide`-style evaluation of concrete scenarios; restore the
default reducibility for this development (proof-irrelevant: the kernel
never respects reducibility attributes anyway). -/
attribute [local semireducible] Rat.add Rat.mul Rat.sub Rat.inv Rat.ofScientific

/-- Locations are 2-d points (Python tuples of numbers). -/
abbrev Loc := ℚ × ℚ

/-- Oracle bundle abstracting float-valued primitives of the source:
`dist` is `math.sqrt((x2-x1)**2 + (y2-y1)**2)`, `rnd1` is Python
`round(x, 1)`, `rnd0` is Python `round(x)`, and `str` is Python string
formatting of a float. -/
structure Oracles where
  dist : Loc → Loc → ℚ
  rnd1 : ℚ → ℚ
  rnd0 : ℚ → Int
  str : ℚ → String

/-! ### Python collection primitives -/

/-- Stable insertion of `x` after every element `y` with `le y x`
(i.e. whose sort key is ≤ that of `x`). -/
def insSorted (le : α → α → Bool) (x : α) : List α → List α
  | [] => [x]
  | y :: ys => if le y x then y :: insSorted le x ys else x :: y :: ys

/-- Python's stable `sorted` (any two stable sorts agree, so a stable
insertion sort is extensionally the sort the source performs). -/
def pySorted (le : α → α → Bool) (xs : List α) : List α :=
  xs.foldl (fun acc x => insSorted le x acc) []

/-- `dict.get k` / `d[k]`: value of the first entry with key `k`. -/
def lookupA (k : String) : List (String × β) → Option β
  | [] => none
  | (k', v) :: rest => if k' = k then some v else lookupA k rest

/-- `d[k] = v` on a dict: overwrite the entry in place, else append. -/
def setA (k : String) (v : β) : List (String × β) → List (String × β)
  | [] => [(k, v)]
  | (k', v') :: rest => if k' = k then (k', v) :: rest else (k', v') :: setA k v rest

/-- In-place update of the entry at key `k` (used for `d[k] -= 1` when the
key is known to be present). -/
def updateA (k : String) (f : β → β) : List (String × β) → List (String × β)
  | [] => []
  | (k', v) :: rest => if k' = k then (k', f v) :: rest else (k', v) :: updateA k f rest

/-!
### Negotiation engine (`negotiation/negotiation_engine.py`)

Message shapes mirror what `Simulator.step` feeds into
`NegotiationEngine.run_negotiation`: hospital status messages (with
`location`/`name` injected by the simulator), ambulance status messages
(which carry no `location` key, so the engine's `amb.get("location", (50, 50))`
always falls back to the default) and the supply depot message.  The
unread `offers` lists and message timestamps are omitted.
-/

/-- One entry of a hospital message's `requests` list
(`HospitalAgent._generate_requests`). -/
structure SupplyRequest where
  resource : String
  quantity : Int
  urgency : String
  reason : String
deriving DecidableEq

/-- A hospital status message as seen by the negotiation engine. -/
structure HospMsg where
  agent_id : String
  name : String
  location : Loc
  available_beds : Int
  icu_available : Int
  oxygen_units : ℚ
  requests : List SupplyRequest
  priority_score : ℚ
deriving DecidableEq

/-- An ambulance status message (`AmbulanceAgent.generate_message`):
`current_capacity.available_slots = capacity - len(current_patients)` and
`fuel_level`; no `location`, no `status`. -/
structure AmbMsg where
  agent_id : String
  location : Option Loc
  available_slots : Int
  fuel_level : ℚ
deriving DecidableEq

/-- The supply depot message: a copy of the depot inventory. -/
structure SupplyMsg where
  agent_id : String
  inventory : List (String × Int)
  vehicles_available : Int
deriving DecidableEq

/-- Government priorities (`gov_priorities = {"multipliers": {...}}`). -/
structure Priorities where
  multipliers : List (String × ℚ)
deriving DecidableEq

/-- A waiting casualty dict (fields the engine and simulator read). -/
structure WPatient where
  id : String
  severity : String
  location : Loc
  status : String
  assigned_hospital : Option String
deriving DecidableEq

/-- `severity_order.get(sev, 2)` with
`{"critical": 0, "high": 1, "medium": 2, "low": 3}`. -/
def severityOrder (s : String) : Nat :=
  if s = "critical" then 0 else if s = "high" then 1
  else if s = "medium" then 2 else if s = "low" then 3 else 2

/-- `urgency_order.get(u, 2)` (same table as `severityOrder`). -/
def urgencyOrder (u : String) : Nat := severityOrder u

/-- Tentative per-hospital capacity entry built at the top of
`_assign_patients_to_hospitals` (lines 100–110). -/
structure HCap where
  beds : Int
  icu : Int
  location : Loc
  priority_score : ℚ
  name : String
deriving DecidableEq

/-- `hospital_capacity` map: one `dict` assignment per hospital message. -/
def buildCap (hospitals : List HospMsg) : List (String × HCap) :=
  hospitals.foldl
    (fun m h => setA h.agent_id
      ⟨h.available_beds, h.icu_available, h.location, h.priority_score, h.name⟩ m)
    []

/-- The candidate record `_find_best_hospital` builds for a hospital. -/
structure BestH where
  id : String
  name : String
  score : ℚ
  distance : ℚ
  capacity : Int
  reason : String
deriving DecidableEq

/-- One candidate entry of `_find_best_hospital` (lines 160–186). -/
def mkCandidate (O : Oracles) (patientLoc : Loc) (prs : Priorities)
    (hId : String) (h : HCap) : BestH :=
  let distance := O.dist patientLoc h.location
  let distanceScore := max 0 (1 - distance / 100)
  let capacityScore := min 1 (((h.beds : ℚ) + (h.icu : ℚ) * 2) / 50)
  let priorityMult := (lookupA hId prs.multipliers).getD 1
  let totalScore :=
    (distanceScore * (0.4 : ℚ) + capacityScore * (0.4 : ℚ)
      + (1 - h.priority_score) * (0.2 : ℚ)) * priorityMult
  { id := hId, name := h.name, score := totalScore, distance := distance,
    capacity := h.beds,
    reason := "Distance: " ++ O.str distance ++ "km, Capacity: "
      ++ toString h.beds ++ " beds" }

/-- The candidate list of `_find_best_hospital`: hospitals whose capacity
class required by the patient's severity is positive (`critical` needs
`icu > 0`, everything else needs `beds > 0`). -/
def candidatesFor (O : Oracles) (p : WPatient) (cap : List (String × HCap))
    (prs : Priorities) : List BestH :=
  cap.filterMap (fun kv =>
    if (if p.severity = "critical" then kv.2.icu ≤ 0 else kv.2.beds ≤ 0) then none
    else some (mkCandidate O p.location prs kv.1 kv.2))

/-- Python `max(candidates, key=score)`: first candidate of maximal score. -/
def pickBest : List BestH → Option BestH
  | [] => none
  | c :: cs => some (cs.foldl (fun b c' => if c'.score > b.score then c' else b) c)

/-- `NegotiationEngine._find_best_hospital`. -/
def findBestHospital (O : Oracles) (p : WPatient) (cap : List (String × HCap))
    (prs : Priorities) : Option BestH :=
  pickBest (candidatesFor O p cap prs)

/-- A patient assignment produced by `_assign_patients_to_hospitals`. -/
structure PAssign where
  patient_id : String
  patient_severity : String
  patient_location : Loc
  assigned_hospital : String
  hospital_name : String
  score : ℚ
  reason : String
deriving DecidableEq

/-- Capacity decrement after an assignment (lines 131–135): a `critical`
patient consumes the tentative ICU counter, everyone else a general bed. -/
def decCap (severity : String) : HCap → HCap :=
  fun h => if severity = "critical" then { h with icu := h.icu - 1 }
           else { h with beds := h.beds - 1 }

/-- The patient loop of `_assign_patients_to_hospitals` (lines 112–136). -/
def assignLoop (O : Oracles) (prs : Priorities) :
    List WPatient → List (String × HCap) → List PAssign
  | [], _ => []
  | p :: ps, cap =>
    match findBestHospital O p cap prs with
    | none => assignLoop O prs ps cap
    | some best =>
        { patient_id := p.id, patient_severity := p.severity,
          patient_location := p.location, assigned_hospital := best.id,
          hospital_name := best.name, score := best.score, reason := best.reason }
        :: assignLoop O prs ps (updateA best.id (decCap p.severity) cap)

/-- `NegotiationEngine._assign_patients_to_hospitals`: sort waiting patients
by severity (stable), build the tentative capacity map, process at most
10 patients. -/
def assignPatientsToHospitals (O : Oracles) (patients : List WPatient)
    (hospitals : List HospMsg) (prs : Priorities) : List PAssign :=
  let sortedPatients := pySorted
    (fun p q => decide (severityOrder p.severity ≤ severityOrder q.severity)) patients
  assignLoop O prs (sortedPatients.take 10) (buildCap hospitals)

/-- A hospital request merged with its hospital's identity and priority
(`{**req, "hospital_id": ..., "hospital_name": ..., "hospital_priority": ...}`). -/
structure FullRequest where
  resource : String
  quantity : Int
  urgency : String
  reason : String
  hospital_id : String
  hospital_name : String
  hospital_priority : ℚ
deriving DecidableEq

/-- Sort key comparison of `_allocate_supplies`:
`(urgency_order.get(urgency, 2), -hospital_priority)` ascending. -/
def reqLE (r s : FullRequest) : Bool :=
  decide (urgencyOrder r.urgency < urgencyOrder s.urgency) ||
  (decide (urgencyOrder r.urgency = urgencyOrder s.urgency) &&
    decide ((-r.hospital_priority) ≤ (-s.hospital_priority)))

/-- A supply allocation record produced by `_allocate_supplies`. -/
structure SupplyAllocation where
  hospital_id : String
  hospital_name : String
  resource : String
  quantity : Int
  urgency : String
  reason : String
deriving DecidableEq

/-- The request loop of `_allocate_supplies` (lines 226–245), threading the
tentative `available` inventory; returns the final inventory and the
allocations in order. -/
def allocLoop : List FullRequest → List (String × Int) →
    List (String × Int) × List SupplyAllocation
  | [], avail => (avail, [])
  | req :: rest, avail =>
    if req.resource = "ambulance_diversion" then allocLoop rest avail
    else
      let availableQty := (lookupA req.resource avail).getD 0
      if availableQty > 0 then
        let allocated := min req.quantity availableQty
        let result := allocLoop rest (setA req.resource (availableQty - allocated) avail)
        (result.1,
          { hospital_id := req.hospital_id, hospital_name := req.hospital_name,
            resource := req.resource, quantity := allocated,
            urgency := req.urgency, reason := req.reason } :: result.2)
      else allocLoop rest avail

/-- `NegotiationEngine._allocate_supplies`: gather every hospital request,
sort by (urgency tier, descending hospital priority), process at most 5
against the depot message's inventory. -/
def allocateSupplies (hospitals : List HospMsg) (supply : SupplyMsg) :
    List SupplyAllocation :=
  let allRequests := hospitals.flatMap (fun h =>
    h.requests.map (fun r =>
      { resource := r.resource, quantity := r.quantity, urgency := r.urgency,
        reason := r.reason, hospital_id := h.agent_id, hospital_name := h.name,
        hospital_priority := h.priority_score }))
  let sortedReqs := pySorted reqLE allRequests
  (allocLoop (sortedReqs.take 5) supply.inventory).2

/-- `_calculate_eta`: minutes for ambulance → patient → hospital at 40 km/h. -/
def calcEta (O : Oracles) (ambLoc patientLoc hospitalLoc : Loc) : ℚ :=
  (O.dist ambLoc patientLoc + O.dist patientLoc hospitalLoc) / 40 * 60

/-- An ambulance assignment record of `_assign_ambulances`. -/
structure AAssign where
  ambulance_id : String
  patient_id : String
  hospital_id : String
  pickup_location : Loc
  hospital_location : Loc
  eta_minutes : ℚ
deriving DecidableEq

/-- The inner minimum search of `_assign_ambulances` (lines 278–288):
`best_eta` starts at infinity, strict `<` keeps the first minimum. -/
def findBestAmb (O : Oracles) (pool : List AmbMsg) (patientLoc hospitalLoc : Loc) :
    Option (AmbMsg × ℚ) :=
  pool.foldl (fun acc amb =>
    let eta := calcEta O (amb.location.getD (50, 50)) patientLoc hospitalLoc
    match acc with
    | none => some (amb, eta)
    | some be => if eta < be.2 then some (amb, eta) else acc) none

/-- The assignment loop of `_assign_ambulances` (lines 269–301): stop when
the available pool is exhausted, pick the minimum-ETA unit, remove it from
the pool (Python `list.remove`, i.e. first occurrence by value). -/
def assignAmbLoop (O : Oracles) (hlocs : List (String × Loc)) :
    List PAssign → List AmbMsg → List AAssign
  | [], _ => []
  | pa :: rest, pool =>
    if pool.isEmpty then []
    else
      let patientLoc := pa.patient_location
      let hospitalLoc := (lookupA pa.assigned_hospital hlocs).getD (50, 50)
      match findBestAmb O pool patientLoc hospitalLoc with
      | none => assignAmbLoop O hlocs rest pool
      | some be =>
          { ambulance_id := be.1.agent_id, patient_id := pa.patient_id,
            hospital_id := pa.assigned_hospital, pickup_location := patientLoc,
            hospital_location := hospitalLoc, eta_minutes := O.rnd1 be.2 }
          :: assignAmbLoop O hlocs rest (pool.erase be.1)

/-- `NegotiationEngine._assign_ambulances`: the available pool is every
message with `available_slots > 0` (no fuel or status condition). -/
def assignAmbulances (O : Oracles) (patientAssignments : List PAssign)
    (ambulances : List AmbMsg) (hospitals : List HospMsg) : List AAssign :=
  let availableAmbulances := ambulances.filter (fun a => a.available_slots > 0)
  let hospitalLocations := hospitals.foldl (fun m h => setA h.agent_id h.location m) []
  assignAmbLoop O hospitalLocations patientAssignments availableAmbulances

/-- One entry of `decisions_explained`. -/
structure Explanation where
  type : String
  explanation : String
deriving DecidableEq

/-- `NegotiationEngine._generate_explanations`. -/
def generateExplanations (O : Oracles) (pas : List PAssign)
    (sas : List SupplyAllocation) (aas : List AAssign) : List Explanation :=
  pas.map (fun pa =>
    { type := "patient_assignment",
      explanation := "Patient " ++ pa.patient_id ++ " (" ++ pa.patient_severity
        ++ ") assigned to " ++ pa.hospital_name ++ " because " ++ pa.reason })
  ++ sas.map (fun sa =>
    { type := "supply_allocation",
      explanation := toString sa.quantity ++ " units of " ++ sa.resource
        ++ " allocated to " ++ sa.hospital_name ++ " due to " ++ sa.urgency
        ++ " urgency" })
  ++ aas.map (fun aa =>
    { type := "ambulance_dispatch",
      explanation := "Ambulance " ++ aa.ambulance_id ++ " dispatched for patient "
        ++ aa.patient_id ++ " to " ++ aa.hospital_id ++ " (ETA: "
        ++ O.str aa.eta_minutes ++ " min)" })

/-- The result dict of one `run_negotiation` round. -/
structure RoundResult where
  round : Nat
  timestamp : String
  patient_assignments : List PAssign
  supply_allocations : List SupplyAllocation
  ambulance_assignments : List AAssign
  decisions_explained : List Explanation
deriving DecidableEq

/-- `NegotiationEngine.run_negotiation` with the already-incremented round
counter passed in (the engine's only other state, the round history, is
write-only). -/
def runNegotiation (O : Oracles) (round : Nat) (now : String)
    (hospitalMessages : List HospMsg) (ambulanceMessages : List AmbMsg)
    (supplyMessage : SupplyMsg) (governmentPriorities : Priorities)
    (waitingPatients : List WPatient) : RoundResult :=
  let pas := assignPatientsToHospitals O waitingPatients hospitalMessages
    governmentPriorities
  let sas := allocateSupplies hospitalMessages supplyMessage
  let aas := assignAmbulances O pas ambulanceMessages hospitalMessages
  { round := round, timestamp := now, patient_assignments := pas,
    supply_allocations := sas, ambulance_assignments := aas,
    decisions_explained := generateExplanations O pas sas aas }

/-!
### Constraint checker (`optimization/constraints.py`),
`ConstraintChecker.filter_valid_allocations` (lines 178–214).
-/

/-- An allocation dict as validated by `filter_valid_allocations`; the keys
are read with `.get`, so both may be absent, and `rejection_reason` is
attached to rejected allocations. -/
structure CAlloc where
  assigned_hospital : Option String
  patient_severity : Option String
  rejection_reason : Option String
deriving DecidableEq

/-- A hospital ledger entry as read by the checker
(`h.get("available_beds", 0)`, `h.get("icu_available", 0)`). -/
structure HLedger where
  available_beds : Int
  icu_available : Int
deriving DecidableEq

/-- `remaining.get(hospital_id, 0)` where `hospital_id` itself may be
`None` (never a key of the dict). -/
def remGet (hid : Option String) (m : List (String × Int)) : Int :=
  (hid.bind (fun k => lookupA k m)).getD 0

/-- `remaining[hospital_id] -= 1` (only reached when the key is present). -/
def remDec (hid : Option String) (m : List (String × Int)) : List (String × Int) :=
  match hid with
  | none => m
  | some k => updateA k (fun n => n - 1) m

/-- The proposal loop of `filter_valid_allocations` (lines 195–212). -/
def filterValidLoop : List CAlloc → List (String × Int) → List (String × Int) →
    List CAlloc × List CAlloc
  | [], _, _ => ([], [])
  | a :: rest, remainingBeds, remainingIcu =>
    if a.patient_severity = some "critical" then
      if remGet a.assigned_hospital remainingIcu > 0 then
        let r := filterValidLoop rest remainingBeds (remDec a.assigned_hospital remainingIcu)
        (a :: r.1, r.2)
      else
        let r := filterValidLoop rest remainingBeds remainingIcu
        (r.1, { a with rejection_reason := some "No ICU capacity" } :: r.2)
    else
      if remGet a.assigned_hospital remainingBeds > 0 then
        let r := filterValidLoop rest (remDec a.assigned_hospital remainingBeds) remainingIcu
        (a :: r.1, r.2)
      else
        let r := filterValidLoop rest remainingBeds remainingIcu
        (r.1, { a with rejection_reason := some "No bed capacity" } :: r.2)

/-- `ConstraintChecker.filter_valid_allocations`: partition proposals into
(valid, rejected) against running remaining-capacity counters seeded from
the hospital ledgers. -/
def filterValidAllocations (proposed : List CAlloc)
    (hospitals : List (String × HLedger)) : List CAlloc × List CAlloc :=
  let remainingBeds := hospitals.map (fun kv => (kv.1, kv.2.available_beds))
  let remainingIcu := hospitals.map (fun kv => (kv.1, kv.2.icu_available))
  filterValidLoop proposed remainingBeds remainingIcu

/-!
### Hospital agent (`agents/hospital_agent.py`)
-/

/-- An admitted-patient record (`accept_patient`, lines 354–359). -/
structure PatientRec where
  id : String
  esi_level : Nat
  admitted_at : String
  triage_category : String
  unit : String
deriving DecidableEq

/-- `ESI_LEVELS[esi]["name"]` (`config/constants.py`).  Python raises
`KeyError` outside 1–5; theorems about admission restrict to that domain. -/
def esiName (esi : Nat) : String :=
  if esi = 1 then "Resuscitation" else if esi = 2 then "Emergent"
  else if esi = 3 then "Urgent" else if esi = 4 then "Less Urgent"
  else if esi = 5 then "Non-Urgent" else ""

/-- `OXYGEN_CONSUMPTION_LPM.get(esi, 4.0)`. -/
def oxygenLpm (esi : Nat) : ℚ :=
  if esi = 1 then 15 else if esi = 2 then 8 else if esi = 3 then 4
  else if esi = 4 then 2 else if esi = 5 then 0 else 4

/-- Hospital agent state (the fields any modelled consumer reads). -/
structure HospitalA where
  agent_id : String
  name : String
  location : Loc
  total_beds : Int
  available_beds : Int
  icu_beds : Int
  icu_available : Int
  oxygen_units : ℚ
  doctors_on_duty : Int
  nurses_on_duty : Int
  patient_inflow_rate : ℚ
  patients_admitted : List PatientRec
  incoming_ambulances : List String
deriving DecidableEq

namespace HospitalA

/-- `bed_utilization = 1 - available_beds / max(total_beds, 1)`. -/
def bedUtilization (h : HospitalA) : ℚ :=
  1 - (h.available_beds : ℚ) / (max h.total_beds 1 : Int)

/-- `icu_utilization = 1 - icu_available / max(icu_beds, 1)`. -/
def icuUtilization (h : HospitalA) : ℚ :=
  1 - (h.icu_available : ℚ) / (max h.icu_beds 1 : Int)

/-- `icu_patients = icu_beds - icu_available`. -/
def icuPatients (h : HospitalA) : Int := h.icu_beds - h.icu_available

/-- `current_oxygen_consumption_lpm`: admitted patients by acuity plus
ICU patients at the ESI-1 rate (15 L/min). -/
def oxygenConsumptionLpm (h : HospitalA) : ℚ :=
  (h.patients_admitted.map (fun p => oxygenLpm p.esi_level)).sum
    + (h.icuPatients : ℚ) * 15

/-- `oxygen_hours_remaining` (999 when consumption is non-positive). -/
def oxygenHoursRemaining (h : HospitalA) : ℚ :=
  if h.oxygenConsumptionLpm ≤ 0 then 999
  else h.oxygen_units / (h.oxygenConsumptionLpm * 60)

/-- `oxygen_status` against `OXYGEN_RESERVE_{CRITICAL,WARNING}_HOURS`. -/
def oxygenStatus (h : HospitalA) : String :=
  if h.oxygenHoursRemaining ≤ 4 then "critical"
  else if h.oxygenHoursRemaining ≤ 8 then "warning" else "adequate"

/-- `staffing_adequate`: `nurse_patient_ratio ≥ 1/NURSE_PATIENT_RATIO_ICU`
where the ratio is `(nurses*0.4)/icu_patients`, infinite with no ICU
patients. -/
def staffingAdequate (h : HospitalA) : Bool :=
  decide (h.icuPatients = 0) ||
  decide ((h.nurses_on_duty : ℚ) * (0.4 : ℚ) / (h.icuPatients : ℚ) ≥ 1 / 2)

/-- `is_overloaded`: bed utilization at/above `HOSPITAL_OVERLOAD_THRESHOLD`. -/
def isOverloaded (h : HospitalA) : Bool :=
  decide (h.bedUtilization ≥ (0.85 : ℚ))

/-- `is_critical` (bed/ICU saturation or critical oxygen). -/
def isCritical (h : HospitalA) : Bool :=
  decide (h.bedUtilization ≥ (0.95 : ℚ)) ||
  decide (h.icuUtilization ≥ (0.9 : ℚ)) ||
  decide (h.oxygenStatus = "critical")

/-- `requires_diversion`. -/
def requiresDiversion (h : HospitalA) : Bool :=
  decide (h.bedUtilization ≥ (0.98 : ℚ)) ||
  decide (h.icu_available = 0) ||
  decide (h.oxygenHoursRemaining ≤ 2)

/-- `calculate_priority_score` (lines 400–423). -/
def priorityScore (h : HospitalA) : ℚ :=
  let score := h.bedUtilization * (0.25 : ℚ) + h.icuUtilization * (0.3 : ℚ)
  let score := score + (if h.oxygenStatus = "critical" then (0.3 : ℚ)
    else if h.oxygenStatus = "warning" then (0.15 : ℚ) else 0)
  let score := score + (if h.staffingAdequate then 0 else (0.1 : ℚ))
  let score := score + min (0.05 : ℚ) (h.patient_inflow_rate * (0.01 : ℚ))
  min 1 score

/-- `clinical_status` string. -/
def clinicalStatus (h : HospitalA) : String :=
  if h.requiresDiversion then "CRITICAL – PATIENT DIVERSION REQUIRED"
  else if h.isCritical then "CRITICAL – AT CAPACITY"
  else if h.isOverloaded then "LIMITED CAPACITY"
  else "OPERATIONAL – ACCEPTING ADMISSIONS"

/-- `_generate_requests` (lines 221–261). -/
def generateRequests (O : Oracles) (h : HospitalA) : List SupplyRequest :=
  (if h.oxygenStatus ≠ "adequate" then
    [{ resource := "oxygen", quantity := 100,
       urgency := if h.oxygenHoursRemaining ≤ 4 then "critical" else "high",
       reason := "Oxygen reserve at " ++ O.str h.oxygenHoursRemaining
         ++ " hours at current consumption" }]
   else []) ++
  (if h.requiresDiversion then
    [{ resource := "patient_diversion", quantity := 1, urgency := "critical",
       reason := "Critical care saturation – " ++ h.clinicalStatus }]
   else if h.isOverloaded then
    [{ resource := "surge_support", quantity := 1, urgency := "high",
       reason := "Surge protocol active – "
         ++ toString (O.rnd0 (h.bedUtilization * 100)) ++ "% capacity" }]
   else []) ++
  (if ¬h.staffingAdequate ∧ h.icuPatients > 0 then
    [{ resource := "nursing_staff", quantity := 2, urgency := "high",
       reason := "ICU nurse ratio below standard: 1:"
         ++ O.str ((h.icuPatients : ℚ) / ((h.nurses_on_duty : ℚ) * (0.4 : ℚ))) }]
   else [])

/-- `generate_message` plus the simulator's injection of `location` and
`name` (simulator lines 198–203); the unread `offers` are omitted. -/
def genMsg (O : Oracles) (h : HospitalA) : HospMsg :=
  { agent_id := h.agent_id, name := h.name, location := h.location,
    available_beds := h.available_beds, icu_available := h.icu_available,
    oxygen_units := h.oxygen_units, requests := h.generateRequests O,
    priority_score := h.priorityScore }

/-- `can_accept_patient(esi_level)` with an integer ESI level. -/
def canAcceptPatient (h : HospitalA) (esi : Nat) : Bool :=
  if esi ≤ 2 then
    decide (h.icu_available > 0) && decide (h.oxygenHoursRemaining > 4)
      && !h.requiresDiversion
  else
    decide (h.available_beds > 0) && !h.requiresDiversion

/-- `accept_patient` (lines 349–370): returns the new state and the
success flag. -/
def acceptPatient (now : String) (h : HospitalA) (pid : String) (esi : Nat) :
    HospitalA × Bool :=
  if ¬h.canAcceptPatient esi then (h, false)
  else
    let rec_ : PatientRec :=
      { id := pid, esi_level := esi, admitted_at := now,
        triage_category := esiName esi,
        unit := if esi ≤ 2 then "ICU" else "General" }
    if esi ≤ 2 then
      ({ h with icu_available := h.icu_available - 1,
                patients_admitted := h.patients_admitted ++ [rec_] }, true)
    else
      ({ h with available_beds := h.available_beds - 1,
                patients_admitted := h.patients_admitted ++ [rec_] }, true)

/-- A hospital `update` action (`patient_discharged`). -/
structure DischargeAction where
  patient_id : String
  esi_level : Nat
deriving DecidableEq

/-- `update(tick)` (lines 372–398): consume oxygen, then every 5 ticks
sort the admitted list ascending by `-esi_level` in place and `pop()` the
last record (the one with the smallest `-esi`, i.e. the lowest ESI
number). -/
def update (tick : Nat) (h : HospitalA) : HospitalA × List DischargeAction :=
  let oxygenConsumed := h.oxygenConsumptionLpm * 5
  let h := { h with oxygen_units := max 0 (h.oxygen_units - oxygenConsumed) }
  if tick % 5 = 0 ∧ ¬h.patients_admitted.isEmpty then
    let sorted := pySorted
      (fun p q => decide ((-(p.esi_level : Int)) ≤ (-(q.esi_level : Int))))
      h.patients_admitted
    match sorted.getLast? with
    | none => (h, [])
    | some discharged =>
        let h := { h with patients_admitted := sorted.dropLast }
        let h :=
          if discharged.unit = "ICU" then
            { h with icu_available := min (h.icu_available + 1) h.icu_beds }
          else
            { h with available_beds := min (h.available_beds + 1) h.total_beds }
        (h, [⟨discharged.id, discharged.esi_level⟩])
  else (h, [])

/-- `_handle_supply_allocation` (lines 318–330): an oxygen delivery adds
its quantity to the reserve; other supply types are ignored. -/
def handleSupplyAllocation (h : HospitalA) (supplyType : String) (quantity : ℚ) :
    HospitalA :=
  if supplyType = "oxygen" then { h with oxygen_units := h.oxygen_units + quantity }
  else h

end HospitalA

/-!
### Ambulance agent (`agents/ambulance_agent.py`)
-/

/-- Ambulance agent state. -/
structure AmbulanceA where
  agent_id : String
  location : Loc
  capacity : Int
  current_patients : List WPatient
  fuel : ℚ
  available : Bool
  status : String
  target_patient : Option WPatient
  target_hospital : Option String
  destination : Option Loc
  eta_minutes : ℚ
  patients_delivered : Int
  total_distance : ℚ
deriving DecidableEq

namespace AmbulanceA

/-- `is_available`: free, idle, spare capacity and fuel above
`FUEL_CRITICAL_LEVEL = 0.15`. -/
def isAvailable (a : AmbulanceA) : Bool :=
  a.available && decide (a.status = "idle")
    && decide ((a.current_patients.length : Int) < a.capacity)
    && decide (a.fuel > (0.15 : ℚ))

/-- `generate_message`: `available_slots = capacity - len(current_patients)`
and the fuel level; the message carries no `location` or `status` key and
its unread `requests`/`offers` are omitted. -/
def genMsg (a : AmbulanceA) : AmbMsg :=
  { agent_id := a.agent_id, location := none,
    available_slots := a.capacity - a.current_patients.length,
    fuel_level := a.fuel }

/-- `_calculate_eta`: ETA to `destination` from the current location. -/
def calculateEta (O : Oracles) (a : AmbulanceA) : AmbulanceA :=
  match a.destination with
  | none => a
  | some d => { a with eta_minutes := O.dist a.location d / 40 * 60 }

/-- `assign_mission` (lines 159–171). -/
def assignMission (O : Oracles) (a : AmbulanceA) (patient : WPatient)
    (hospitalId : String) : AmbulanceA :=
  calculateEta O
    { a with target_patient := some patient, target_hospital := some hospitalId,
             status := "en_route_pickup", destination := some patient.location }

/-- `_move_toward(target)` with `speed_factor = 5`: arrive when within 5,
else move 5 units along the segment and recompute the ETA. -/
def moveToward (O : Oracles) (a : AmbulanceA) (target : Loc) : AmbulanceA × Bool :=
  let d := O.dist a.location target
  if d < 5 then ({ a with location := target }, true)
  else
    let ratio := 5 / d
    let a := { a with
      location := (a.location.1 + (target.1 - a.location.1) * ratio,
                   a.location.2 + (target.2 - a.location.2) * ratio),
      total_distance := a.total_distance + 5 }
    (calculateEta O a, false)

/-- An ambulance `update` action. -/
inductive AmbAction
  | pickedUp (patient_id ambulance_id : String)
  | delivered (patient_id : String) (hospital_id : Option String)
      (ambulance_id : String)
deriving DecidableEq

/-- `update(tick)` (lines 197–241): advance the current leg, pick up /
deliver on arrival, then burn fuel if the (possibly just changed) status
is not idle. -/
def update (O : Oracles) (a : AmbulanceA) : AmbulanceA × List AmbAction :=
  let stepped :=
    if a.status = "en_route_pickup" then
      match a.destination with
      | none => (a, ([] : List AmbAction))
      | some dest =>
        let m := a.moveToward O dest
        if m.2 then
          match m.1.target_patient with
          | none => (m.1, [])
          | some p =>
              ({ m.1 with current_patients := m.1.current_patients ++ [p],
                          status := "en_route_hospital" },
               [AmbAction.pickedUp p.id a.agent_id])
        else (m.1, [])
    else if a.status = "en_route_hospital" then
      match a.destination with
      | none => (a, [])
      | some dest =>
        let m := a.moveToward O dest
        if m.2 then
          let acts := m.1.current_patients.map
            (fun p => AmbAction.delivered p.id m.1.target_hospital a.agent_id)
          ({ m.1 with
              patients_delivered :=
                m.1.patients_delivered + m.1.current_patients.length,
              current_patients := [], target_patient := none,
              target_hospital := none, status := "idle", destination := none },
           acts)
        else (m.1, [])
    else (a, [])
  let a' := stepped.1
  let a' := if a'.status ≠ "idle"
    then { a' with fuel := max 0 (a'.fuel - (0.02 : ℚ)) } else a'
  (a', stepped.2)

end AmbulanceA

/-!
### Supply agent (`agents/supply_agent.py`)
-/

/-- An active delivery record (`allocate_supply`, lines 167–176). -/
structure Delivery where
  id : String
  supply_type : String
  quantity : Int
  destination_id : String
  destination_location : Loc
  eta_minutes : ℚ
  started_at : String
  status : String
deriving DecidableEq

/-- A pending supply request (as appended by `Simulator.step`, lines
298–305: no timestamp field). -/
structure PendingReq where
  requester_id : String
  requester_location : Loc
  supply_type : String
  quantity : Int
  urgency : String
deriving DecidableEq

/-- Supply agent state. -/
structure SupplyA where
  agent_id : String
  name : String
  location : Loc
  inventory : List (String × Int)
  delivery_vehicles : Int
  vehicles_available : Int
  active_deliveries : List Delivery
  completed_deliveries : List Delivery
  pending_requests : List PendingReq
deriving DecidableEq

namespace SupplyA

/-- `f"delivery_{n:03d}"`. -/
def deliveryId (n : Nat) : String :=
  "delivery_" ++ (if n < 10 then "00" else if n < 100 then "0" else "")
    ++ toString n

/-- `generate_message`: a copy of the inventory and the vehicle count. -/
def genMsg (s : SupplyA) : SupplyMsg :=
  { agent_id := s.agent_id, inventory := s.inventory,
    vehicles_available := s.vehicles_available }

/-- `allocate_supply` (lines 152–187): deduct inventory, take a vehicle,
and start a delivery stamped with the clock. -/
def allocateSupply (O : Oracles) (now : String) (s : SupplyA)
    (supplyType : String) (quantity : Int) (destinationId : String)
    (destinationLoc : Loc) : SupplyA × Option Delivery :=
  let available := (lookupA supplyType s.inventory).getD 0
  if available < quantity ∨ ¬s.vehicles_available > 0 then (s, none)
  else
    let delivery : Delivery :=
      { id := deliveryId s.active_deliveries.length, supply_type := supplyType,
        quantity := quantity, destination_id := destinationId,
        destination_location := destinationLoc,
        eta_minutes := O.dist s.location destinationLoc / 40 * 60,
        started_at := now, status := "in_transit" }
    ({ s with inventory := setA supplyType (available - quantity) s.inventory,
              vehicles_available := s.vehicles_available - 1,
              active_deliveries := s.active_deliveries ++ [delivery] },
     some delivery)

/-- The request loop of `process_pending_requests` (lines 202–218),
also returning the processed requests for later removal. -/
def processLoop (O : Oracles) (now : String) :
    List PendingReq → SupplyA → SupplyA × List Delivery × List PendingReq
  | [], s => (s, [], [])
  | req :: rest, s =>
    if ¬s.vehicles_available > 0 then (s, [], [])
    else
      let quantity := min req.quantity ((lookupA req.supply_type s.inventory).getD 0)
      if quantity > 0 then
        let alloc := s.allocateSupply O now req.supply_type quantity
          req.requester_id req.requester_location
        match alloc.2 with
        | some d =>
            let r := processLoop O now rest alloc.1
            (r.1, d :: r.2.1, req :: r.2.2)
        | none => processLoop O now rest alloc.1
      else processLoop O now rest s

/-- `process_pending_requests`: run the loop, then remove each processed
request from the pending list (first occurrence by value). -/
def processPendingRequests (O : Oracles) (now : String) (s : SupplyA) :
    SupplyA × List Delivery :=
  let r := processLoop O now s.pending_requests s
  ({ r.1 with pending_requests :=
      r.2.2.foldl (fun l req => l.erase req) r.1.pending_requests },
   r.2.1)

/-- `update(tick)` (lines 226–254): tick down each active delivery's ETA,
complete those reaching 0 and return their vehicles. -/
def update (s : SupplyA) : SupplyA :=
  let ticked := s.active_deliveries.map
    (fun d => { d with eta_minutes := max 0 (d.eta_minutes - 5) })
  let completed := (ticked.filter (fun d => d.eta_minutes ≤ 0)).map
    (fun d => { d with status := "completed" })
  { s with
    active_deliveries := ticked.filter (fun d => ¬d.eta_minutes ≤ 0),
    completed_deliveries := s.completed_deliveries ++ completed,
    vehicles_available := s.vehicles_available + completed.length }

end SupplyA

/-!
### Government agent (`agents/government_agent.py`)

Only the parts `Simulator.step` consumes: the disaster severity, the
priority multipliers and the per-tick severity decay.  The override lists
are omitted (nothing in the step loop ever creates an override).
-/

/-- Government agent state. -/
structure GovernmentA where
  agent_id : String
  disaster_severity : ℚ
  fairness_weight : ℚ
deriving DecidableEq

namespace GovernmentA

/-- `calculate_priority_multipliers` (lines 163–183) over the hospitals'
`get_state` dicts: boost critical hospitals 1.5×, low-oxygen ones 1.3×. -/
def calcMultipliers (hospitals : List HospitalA) : List (String × ℚ) :=
  hospitals.foldl (fun m h =>
    let base : ℚ := 1
    let base := if h.isCritical then base * (1.5 : ℚ) else base
    let base := if h.oxygen_units < 30 then base * (1.3 : ℚ) else base
    setA h.agent_id base m) []

/-- `update(tick)`: every 10 ticks decay the severity toward 0.3. -/
def update (tick : Nat) (g : GovernmentA) : GovernmentA :=
  if tick % 10 = 0 ∧ g.disaster_severity > (0.3 : ℚ) then
    { g with disaster_severity := max (0.3 : ℚ) (g.disaster_severity - (0.02 : ℚ)) }
  else g

end GovernmentA

/-!
### Failure handler (`utils/failure_handler.py`)

`detect_failures` consumes the agents' `get_state()` dicts; the view
structures below carry exactly the fields it reads.  Failure types are the
`FailureType` string-enum values.
-/

/-- Hospital state view (`available_beds`, `icu_available`, `oxygen_units`). -/
structure HView where
  available_beds : Int
  icu_available : Int
  oxygen_units : ℚ
deriving DecidableEq

/-- Ambulance state view (`available` = `is_available`, `fuel` as the
percentage reported by `get_state`). -/
structure AView where
  available : Bool
  fuel : ℚ
deriving DecidableEq

/-- Supply state view (`inventory`). -/
structure SView where
  inventory : List (String × Int)
deriving DecidableEq

/-- A detected failure condition. -/
structure Failure where
  ftype : String
  severity : String
  details : String
  affected : List String
deriving DecidableEq

/-- An entry of `active_failures` (`{**failure, handled_at, protocol}`). -/
structure ActiveFailure where
  ftype : String
  severity : String
  details : String
  affected : List String
  handled_at : String
  protocol : Option String
deriving DecidableEq

/-- A failure response (`handle_failure`, lines 160–166). -/
structure FailResponse where
  failure : Failure
  protocol : String
  actions_taken : List String
  timestamp : String
  status : String
deriving DecidableEq

/-- `emergency_protocols` (name and advisory action list per type). -/
def protocolFor (ftype : String) : Option (String × List String) :=
  if ftype = "no_beds_anywhere" then
    some ("Emergency Bed Expansion Protocol",
      ["Activate overflow capacity at all hospitals",
       "Request field hospital deployment",
       "Prioritize critical patients only",
       "Implement triage protocols"])
  else if ftype = "oxygen_exhausted" then
    some ("Oxygen Emergency Protocol",
      ["Redistribute from lower-priority facilities",
       "Emergency airlift request",
       "Implement oxygen rationing",
       "Prioritize ICU patients"])
  else if ftype = "no_ambulances" then
    some ("Transport Emergency Protocol",
      ["Activate reserve vehicles",
       "Request military/police transport",
       "Establish triage collection points",
       "Priority-based patient staging"])
  else if ftype = "supply_depleted" then
    some ("Supply Chain Emergency Protocol",
      ["Emergency procurement activated",
       "Regional supply sharing initiated",
       "Non-essential deliveries suspended",
       "Rationing protocols in effect"])
  else if ftype = "communication_failure" then
    some ("Communication Backup Protocol",
      ["Switch to backup channels", "Activate radio networks",
       "Deploy communication officers", "Implement local decision authority"])
  else if ftype = "system_overload" then
    some ("System Overload Protocol",
      ["Reduce update frequency", "Prioritize critical operations",
       "Queue non-urgent requests", "Scale processing capacity"])
  else none

/-- `FailureHandler.detect_failures` (lines 96–153). -/
def detectFailures (hospitals : List (String × HView))
    (ambulances : List (String × AView)) (supply : SView) : List Failure :=
  let totalBeds := (hospitals.map (fun kv => kv.2.available_beds)).sum
  let totalIcu := (hospitals.map (fun kv => kv.2.icu_available)).sum
  let noBeds : List Failure :=
    if totalBeds = 0 ∧ totalIcu = 0 then
      [{ ftype := "no_beds_anywhere", severity := "critical",
         details := "All hospitals at maximum capacity", affected := [] }]
    else []
  let hospitalsWithoutOxygen :=
    (hospitals.filter (fun kv => kv.2.oxygen_units ≤ 5)).map (fun kv => kv.1)
  let oxygenOut : List Failure :=
    if (hospitalsWithoutOxygen.length : ℚ) ≥ (hospitals.length : ℚ) * (0.5 : ℚ) then
      [{ ftype := "oxygen_exhausted", severity := "critical",
         details := toString hospitalsWithoutOxygen.length
           ++ " hospitals critically low on oxygen",
         affected := hospitalsWithoutOxygen }]
    else []
  let availableAmbulances :=
    (ambulances.filter (fun kv => kv.2.available ∧ kv.2.fuel > 15)).map (fun kv => kv.1)
  let noAmb : List Failure :=
    if availableAmbulances.length = 0 then
      [{ ftype := "no_ambulances", severity := "high",
         details := "No ambulances available for dispatch", affected := [] }]
    else []
  let depleted := (["oxygen", "medicine"].filter
    (fun r => (lookupA r supply.inventory).getD 0 ≤ 10))
  let supplyOut : List Failure :=
    if ¬depleted.isEmpty then
      [{ ftype := "supply_depleted", severity := "high",
         details := "Critical supplies depleted: " ++ String.intercalate ", " depleted,
         affected := depleted }]
    else []
  noBeds ++ oxygenOut ++ noAmb ++ supplyOut

/-- `FailureHandler.handle_failure`. -/
def handleFailure (now : String) (f : Failure) : FailResponse × ActiveFailure :=
  let protocol := protocolFor f.ftype
  ({ failure := f,
     protocol := (protocol.map (fun p => p.1)).getD "Emergency Response",
     actions_taken := (protocol.map (fun p => p.2)).getD
       ["Manual intervention required"],
     timestamp := now, status := "activated" },
   { ftype := f.ftype, severity := f.severity, details := f.details,
     affected := f.affected, handled_at := now,
     protocol := protocol.map (fun p => p.1) })

/-- The dedup loop in `check_and_handle_failures` (lines 187–197): handle
a detected failure only if no active failure of the same type exists,
threading the growing active list. -/
def handleNewFailures (now : String) :
    List Failure → List ActiveFailure → List ActiveFailure × List FailResponse
  | [], active => (active, [])
  | f :: rest, active =>
    if active.any (fun af => af.ftype = f.ftype) then
      handleNewFailures now rest active
    else
      let h := handleFailure now f
      let r := handleNewFailures now rest (active ++ [h.2])
      (r.1, h.1 :: r.2)

/-- `FailureHandler.check_and_handle_failures`: detect, then handle every
condition whose type is not already active. -/
def checkAndHandleFailures (now : String) (active : List ActiveFailure)
    (hospitals : List (String × HView)) (ambulances : List (String × AView))
    (supply : SView) : List ActiveFailure × List FailResponse :=
  handleNewFailures now (detectFailures hospitals ambulances supply) active

/-!
### Simulator (`simulation/simulator.py`)

`initialize` is parameterized by the scenario configuration it reads and
by the randomly generated initial casualty list; `step` additionally by
the inflow the data generator would produce this tick and the clock.

Note on the commit phase (`step`, lines 221–258): the simulator calls
`hospital.can_accept_patient(pa["patient_severity"])` with the *severity
string* (e.g. `"critical"`), and `can_accept_patient` immediately
evaluates `esi_level <= 2`; in Python 3 comparing `str` with `int` raises
`TypeError`, so `step` raises as soon as any patient assignment targets an
existing hospital.  The embedding models this as the `typeError` outcome,
with the state mutations performed before that point (tick increment,
inflow extension, negotiation round counter) retained.
-/

/-- A committed action recorded in the step report. -/
inductive ActionRec
  | patientAssigned (patient hospital : String)
  | patientDelivered (patient_id : String) (hospital_id : Option String)
      (ambulance_id : String)
deriving DecidableEq

/-- The per-tick step report (`step_result`). -/
structure StepReport where
  tick : Nat
  timestamp : String
  actions : List ActionRec
  decisions : List Explanation
  alerts : List FailResponse
deriving DecidableEq

/-- Outcome of `Simulator.step`: the not-running error dict, a normal
report, or the `TypeError` raised in the commit phase. -/
inductive StepOutcome
  | notRunning
  | report (r : StepReport)
  | typeError
deriving DecidableEq

/-- Simulator state (the components the step report and the modelled
ledgers depend on; logger/metrics/explainer/global-state mirrors are
write-only and omitted). -/
structure SimState where
  tick : Nat
  running : Bool
  current_round : Nat
  hospitals : List HospitalA
  ambulances : List AmbulanceA
  supply : SupplyA
  government : GovernmentA
  waiting_patients : List WPatient
  active_failures : List ActiveFailure
deriving DecidableEq

/-- The ambulance-dispatch loop of `step` (lines 261–292). -/
def dispatchAmbulances (O : Oracles) (hospitals : List HospitalA)
    (waiting : List WPatient) :
    List AAssign → List AmbulanceA → List AmbulanceA
  | [], ambs => ambs
  | aa :: rest, ambs =>
    let ambs' :=
      match hospitals.find? (fun h => h.agent_id = aa.hospital_id) with
      | none => ambs
      | some hosp =>
        match waiting.find? (fun p => p.id = aa.patient_id) with
        | none => ambs
        | some patient =>
            ambs.map (fun a =>
              if a.agent_id = aa.ambulance_id ∧ a.isAvailable then
                { a.assignMission O patient aa.hospital_id with
                    destination := some hosp.location }
              else a)
    dispatchAmbulances O hospitals waiting rest ambs'

/-- The supply-allocation loop of `step` (lines 294–305): oxygen
allocations to existing hospitals become pending depot requests. -/
def queueSupplyRequests (hospitals : List HospitalA)
    (sas : List SupplyAllocation) (s : SupplyA) : SupplyA :=
  sas.foldl (fun s sa =>
    match hospitals.find? (fun h => h.agent_id = sa.hospital_id) with
    | none => s
    | some hosp =>
      if sa.resource = "oxygen" then
        { s with pending_requests := s.pending_requests ++
            [{ requester_id := sa.hospital_id, requester_location := hosp.location,
               supply_type := sa.resource, quantity := sa.quantity,
               urgency := sa.urgency }] }
      else s) s

/-- Steps 5–9 of `Simulator.step` (lines 260–365), reached when the commit
phase did not raise: dispatch ambulances, queue and process supply
requests, run every agent's per-tick update, check failures and assemble
the step report. -/
def stepOkBranch (O : Oracles) (s : SimState) (tick' round' : Nat)
    (waiting : List WPatient) (nr : RoundResult) (now : String) :
    SimState × StepOutcome :=
  let ambulancesDispatched := dispatchAmbulances O s.hospitals waiting
    nr.ambulance_assignments s.ambulances
  let supplyQueued := queueSupplyRequests s.hospitals nr.supply_allocations s.supply
  let supplyProcessed := supplyQueued.processPendingRequests O now
  let hospitalsUpdated := s.hospitals.map (fun h => (h.update tick').1)
  let ambUpdates := ambulancesDispatched.map (fun a => a.update O)
  let ambulancesUpdated := ambUpdates.map (fun u => u.1)
  let deliveredActions := (ambUpdates.flatMap (fun u => u.2)).filterMap
    (fun act => match act with
      | AmbulanceA.AmbAction.delivered pid hid aid =>
          some (ActionRec.patientDelivered pid hid aid)
      | _ => none)
  let supplyUpdated := supplyProcessed.1.update
  let governmentUpdated := s.government.update tick'
  let hview := hospitalsUpdated.map (fun h =>
    (h.agent_id, HView.mk h.available_beds h.icu_available h.oxygen_units))
  let aview := ambulancesUpdated.map (fun a =>
    (a.agent_id, AView.mk a.isAvailable (O.rnd1 (a.fuel * 100))))
  let sview : SView := ⟨supplyUpdated.inventory⟩
  let failures := checkAndHandleFailures now s.active_failures hview aview sview
  ({ tick := tick', running := s.running, current_round := round',
     hospitals := hospitalsUpdated, ambulances := ambulancesUpdated,
     supply := supplyUpdated, government := governmentUpdated,
     waiting_patients := waiting, active_failures := failures.1 },
   .report
    { tick := tick', timestamp := now, actions := deliveredActions,
      decisions := nr.decisions_explained,
      alerts := failures.2 })

/-- `Simulator.step` (lines 164–365). -/
def step (O : Oracles) (s : SimState) (inflow : List WPatient) (now : String) :
    SimState × StepOutcome :=
  if ¬s.running then (s, .notRunning)
  else
    let tick' := s.tick + 1
    let waiting := if tick' % 3 = 0 then s.waiting_patients ++ inflow
                   else s.waiting_patients
    let hospitalMessages := s.hospitals.map (HospitalA.genMsg O)
    let ambulanceMessages := s.ambulances.map AmbulanceA.genMsg
    let supplyMessage := s.supply.genMsg
    let govPriorities : Priorities := ⟨GovernmentA.calcMultipliers s.hospitals⟩
    let round' := s.current_round + 1
    let negotiationResult := runNegotiation O round' now hospitalMessages
      ambulanceMessages supplyMessage govPriorities
      (waiting.filter (fun p => p.status = "waiting"))
    if negotiationResult.patient_assignments.any (fun pa =>
        (s.hospitals.find? (fun h => h.agent_id = pa.assigned_hospital)).isSome) then
      ({ s with tick := tick', current_round := round',
                waiting_patients := waiting }, .typeError)
    else
      stepOkBranch O s tick' round' waiting negotiationResult now

/-- A hospital scenario entry (the `HOSPITALS_CONFIG` keys `initialize`
passes to `HospitalAgent.__init__`; `nurses_on_duty` is not passed, so the
constructor's `doctors_on_duty * 3` estimate applies). -/
structure HConfig where
  id : String
  name : String
  location : Loc
  total_beds : Int
  available_beds : Int
  icu_beds : Int
  icu_available : Int
  oxygen_units : ℚ
  doctors_on_duty : Int
  patient_inflow_rate : ℚ
deriving DecidableEq

/-- An ambulance scenario entry. -/
structure AConfig where
  id : String
  location : Loc
  capacity : Int
  fuel : ℚ
  available : Bool
deriving DecidableEq

/-- The supply scenario entry. -/
structure SConfig where
  id : String
  name : String
  location : Loc
  food_units : Int
  water_units : Int
  oxygen_units : Int
  medicine_units : Int
  delivery_vehicles : Int
deriving DecidableEq

/-- The government scenario entry. -/
structure GConfig where
  id : String
  disaster_severity : ℚ
  fairness_weight : ℚ
deriving DecidableEq

/-- `HospitalAgent.__init__` (lines 37–66): stores the configuration
verbatim — no validation of the capacity triples. -/
def mkHospitalAgent (c : HConfig) : HospitalA :=
  { agent_id := c.id, name := c.name, location := c.location,
    total_beds := c.total_beds, available_beds := c.available_beds,
    icu_beds := c.icu_beds, icu_available := c.icu_available,
    oxygen_units := c.oxygen_units, doctors_on_duty := c.doctors_on_duty,
    nurses_on_duty := c.doctors_on_duty * 3,
    patient_inflow_rate := c.patient_inflow_rate,
    patients_admitted := [], incoming_ambulances := [] }

/-- `AmbulanceAgent.__init__`. -/
def mkAmbulanceAgent (c : AConfig) : AmbulanceA :=
  { agent_id := c.id, location := c.location, capacity := c.capacity,
    current_patients := [], fuel := c.fuel, available := c.available,
    status := "idle", target_patient := none, target_hospital := none,
    destination := none, eta_minutes := 0, patients_delivered := 0,
    total_distance := 0 }

/-- `SupplyAgent.__init__`. -/
def mkSupplyAgent (c : SConfig) : SupplyA :=
  { agent_id := c.id, name := c.name, location := c.location,
    inventory := [("food", c.food_units), ("water", c.water_units),
                  ("oxygen", c.oxygen_units), ("medicine", c.medicine_units)],
    delivery_vehicles := c.delivery_vehicles,
    vehicles_available := c.delivery_vehicles,
    active_deliveries := [], completed_deliveries := [], pending_requests := [] }

/-- `Simulator.initialize` (lines 82–162), parameterized by the scenario
configuration and the randomly drawn initial casualty list: it constructs
every agent from its config entry unchecked and unconditionally sets
`running = True` — there is no validation path and no error return. -/
def simInitialize (hcfgs : List HConfig) (acfgs : List AConfig)
    (scfg : SConfig) (gcfg : GConfig) (initialPatients : List WPatient) :
    SimState :=
  { tick := 0, running := true, current_round := 0,
    hospitals := hcfgs.map mkHospitalAgent,
    ambulances := acfgs.map mkAmbulanceAgent,
    supply := mkSupplyAgent scfg,
    government := { agent_id := gcfg.id,
                    disaster_severity := gcfg.disaster_severity,
                    fairness_weight := gcfg.fairness_weight },
    waiting_patients := initialPatients, active_failures := [] }

/-!
## Association-list lemmas
-/

theorem lookupA_updateA_self (k : String) (f : β → β) :
    ∀ m : List (String × β), lookupA k (updateA k f m) = (lookupA k m).map f
  | [] => rfl
  | (k0, v0) :: rest => by
      by_cases hk : k0 = k
      · simp [updateA, lookupA, hk]
      · simp [updateA, lookupA, hk, lookupA_updateA_self k f rest]

theorem lookupA_updateA_ne (h : k' ≠ k) (f : β → β) :
    ∀ m : List (String × β), lookupA k (updateA k' f m) = lookupA k m
  | [] => rfl
  | (k0, v0) :: rest => by
      by_cases hk : k0 = k'
      · have hne : k0 ≠ k := by rw [hk]; exact h
        simp [updateA, lookupA, hk, hne, h]
      · simp only [updateA, hk, if_false]
        by_cases hk2 : k0 = k
        · simp [lookupA, hk2]
        · simp [lookupA, hk2, lookupA_updateA_ne h f rest]

theorem lookupA_map_val (k : String) (f : β → γ) :
    ∀ m : List (String × β),
      lookupA k (m.map (fun kv => (kv.1, f kv.2))) = (lookupA k m).map f
  | [] => rfl
  | (k0, v0) :: rest => by
      by_cases h : k0 = k <;> simp [lookupA, h, lookupA_map_val k f rest]

theorem mem_setA : ∀ {m : List (String × β)}, kv ∈ setA k v m →
    kv = (k, v) ∨ kv ∈ m
  | [], h => by simpa [setA] using h
  | (k0, v0) :: rest, h => by
      by_cases hk : k0 = k
      · rcases List.mem_cons.mp (by simpa [setA, hk] using h) with h1 | h1
        · exact Or.inl (by simpa [hk] using h1)
        · exact Or.inr (List.mem_cons_of_mem _ h1)
      · rcases List.mem_cons.mp (by simpa [setA, hk] using h) with h1 | h1
        · exact Or.inr (by simp [h1])
        · rcases mem_setA h1 with h2 | h2
          · exact Or.inl h2
          · exact Or.inr (List.mem_cons_of_mem _ h2)

/-- The keys of an association list. -/
def keysOf (m : List (String × β)) : List String := m.map Prod.fst

theorem keysOf_cons (kv : String × β) (m : List (String × β)) :
    keysOf (kv :: m) = kv.1 :: keysOf m := rfl

theorem keysOf_updateA (k : String) (f : β → β) :
    ∀ m : List (String × β), keysOf (updateA k f m) = keysOf m
  | [] => rfl
  | (k0, v0) :: rest => by
      by_cases h : k0 = k <;>
        simp [updateA, h, keysOf_cons, keysOf_updateA k f rest]

theorem keysOf_setA_mem (hk : k ∈ keysOf m) : keysOf (setA k v m) = keysOf m := by
  induction m with
  | nil => cases hk
  | cons kv rest ih =>
      by_cases h : kv.1 = k
      · simp [setA, h, keysOf_cons]
      · have hk' : k ∈ keysOf rest := by
          rcases List.mem_cons.mp (by simpa [keysOf_cons] using hk) with h1 | h1
          · exact absurd h1.symm h
          · exact h1
        simp [setA, h, keysOf_cons, ih hk']

theorem keysOf_setA_not_mem (hk : k ∉ keysOf m) :
    keysOf (setA k v m) = keysOf m ++ [k] := by
  induction m with
  | nil => rfl
  | cons kv rest ih =>
      have h : kv.1 ≠ k := by
        intro he
        exact hk (by simp [keysOf_cons, he])
      have hk' : k ∉ keysOf rest := by
        intro hmem
        exact hk (by simp [keysOf_cons]; exact Or.inr hmem)
      simp [setA, h, keysOf_cons, ih hk']

theorem keysOf_setA_nodup (hn : (keysOf m).Nodup) : (keysOf (setA k v m)).Nodup := by
  by_cases hk : k ∈ keysOf m
  · rw [keysOf_setA_mem hk]; exact hn
  · rw [keysOf_setA_not_mem hk]
    exact hn.append (List.nodup_singleton k)
      (by intro a ha hb; simp at hb; exact hk (hb ▸ ha))

theorem lookupA_of_mem_nodup :
    ∀ {m : List (String × β)}, (k, v) ∈ m → (keysOf m).Nodup → lookupA k m = some v
  | [], hmem, _ => by cases hmem
  | (k0, v0) :: rest, hmem, hn => by
      have hn' := List.nodup_cons.mp (by simpa [keysOf_cons] using hn)
      rcases List.mem_cons.mp hmem with h1 | h1
      · have hk : k0 = k := by
          have := congrArg Prod.fst h1
          exact this.symm
        have hv : v0 = v := by
          have := congrArg Prod.snd h1
          exact this.symm
        simp [lookupA, hk, hv]
      · have hkmem : k ∈ keysOf rest := List.mem_map.mpr ⟨(k, v), h1, rfl⟩
        have hk : k0 ≠ k := fun he => hn'.1 (he ▸ hkmem)
        simp [lookupA, hk, lookupA_of_mem_nodup h1 hn'.2]

/-!
## C1: acuity routing inside the patient–hospital matching
-/

/-- A fixed oracle bundle for concrete evaluations. -/
def Odefault : Oracles :=
  { dist := fun _ _ => 0, rnd1 := id, rnd0 := fun _ => 0, str := fun _ => "" }

theorem pickBest_mem_aux (cs : List BestH) (c : BestH) :
    cs.foldl (fun b c' => if c'.score > b.score then c' else b) c ∈ c :: cs := by
  induction cs generalizing c with
  | nil => simp
  | cons c' cs ih =>
      simp only [List.foldl_cons]
      by_cases h : c'.score > c.score
      · simp only [h, if_pos]
        rcases List.mem_cons.mp (ih c') with h1 | h1
        · simp [h1]
        · simp [List.mem_cons, h1]
      · simp only [h, if_neg, not_false_iff]
        rcases List.mem_cons.mp (ih c) with h1 | h1
        · simp [h1]
        · simp [List.mem_cons, h1]

theorem pickBest_mem (h : pickBest cs = some b) : b ∈ cs := by
  cases cs with
  | nil => cases h
  | cons c rest =>
      have hb : rest.foldl (fun b c' => if c'.score > b.score then c' else b) c = b := by
        simpa [pickBest] using h
      simpa [hb] using pickBest_mem_aux rest c

theorem findBestHospital_spec (O : Oracles) (p : WPatient)
    (cap : List (String × HCap)) (prs : Priorities)
    (h : findBestHospital O p cap prs = some b) :
    ∃ kv ∈ cap, kv.1 = b.id ∧
      (p.severity = "critical" → 0 < kv.2.icu) ∧
      (p.severity ≠ "critical" → 0 < kv.2.beds) := by
  have hmem := pickBest_mem h
  rcases List.mem_filterMap.mp hmem with ⟨kv, hkv, hcand⟩
  by_cases hcrit : p.severity = "critical"
  · by_cases hicu : kv.2.icu ≤ 0
    · simp [hcrit, hicu] at hcand
    · refine ⟨kv, hkv, ?_, fun _ => by omega, fun hne => absurd hcrit hne⟩
      have : b = mkCandidate O p.location prs kv.1 kv.2 := by
        simp [hcrit, hicu] at hcand
        exact hcand.symm
      simp [this, mkCandidate]
  · by_cases hbeds : kv.2.beds ≤ 0
    · simp [hcrit, hbeds] at hcand
    · refine ⟨kv, hkv, ?_, fun hc => absurd hc hcrit, fun _ => by omega⟩
      have : b = mkCandidate O p.location prs kv.1 kv.2 := by
        simp [hcrit, hbeds] at hcand
        exact hcand.symm
      simp [this, mkCandidate]

theorem decCap_icu_le (sev : String) (h : HCap) : (decCap sev h).icu ≤ h.icu := by
  by_cases hs : sev = "critical" <;> simp [decCap, hs]

theorem decCap_beds_le (sev : String) (h : HCap) : (decCap sev h).beds ≤ h.beds := by
  by_cases hs : sev = "critical" <;> simp [decCap, hs]

theorem mem_updateA_decCap : ∀ {m : List (String × HCap)},
    kv' ∈ updateA k (decCap sev) m →
    ∃ kv ∈ m, kv'.1 = kv.1 ∧ kv'.2.icu ≤ kv.2.icu ∧ kv'.2.beds ≤ kv.2.beds
  | [], h => by cases h
  | (k0, v0) :: rest, h => by
      by_cases hk : k0 = k
      · rcases List.mem_cons.mp (by simpa [updateA, hk] using h) with h1 | h1
        · exact ⟨(k0, v0), by simp, by simp [h1, hk], by
            simpa [h1] using decCap_icu_le sev v0, by
            simpa [h1] using decCap_beds_le sev v0⟩
        · exact ⟨kv', List.mem_cons_of_mem _ h1, rfl, le_refl _, le_refl _⟩
      · rcases List.mem_cons.mp (by simpa [updateA, hk] using h) with h1 | h1
        · exact ⟨(k0, v0), by simp, by simp [h1], by simp [h1], by simp [h1]⟩
        · rcases mem_updateA_decCap h1 with ⟨kv, hkv, he, hi, hb⟩
          exact ⟨kv, List.mem_cons_of_mem _ hkv, he, hi, hb⟩

theorem assignLoop_target_has_capacity (O : Oracles) (prs : Priorities) :
    ∀ (ps : List WPatient) (cap : List (String × HCap)) (a : PAssign),
      a ∈ assignLoop O prs ps cap →
      ∃ kv ∈ cap, kv.1 = a.assigned_hospital ∧
        (a.patient_severity = "critical" → 0 < kv.2.icu) ∧
        (a.patient_severity ≠ "critical" → 0 < kv.2.beds)
  | [], _, a, ha => by cases ha
  | p :: ps, cap, a, ha => by
      rw [assignLoop] at ha
      cases hfind : findBestHospital O p cap prs with
      | none =>
          rw [hfind] at ha
          exact assignLoop_target_has_capacity O prs ps cap a ha
      | some best =>
          rw [hfind] at ha
          rcases List.mem_cons.mp ha with h1 | h1
          · rcases findBestHospital_spec O p cap prs hfind with ⟨kv, hkv, hid, hi, hb⟩
            exact ⟨kv, hkv, by simp [h1, hid], by simpa [h1] using hi,
              by simpa [h1] using hb⟩
          · rcases assignLoop_target_has_capacity O prs ps _ a h1 with
              ⟨kv', hkv', hid, hi, hb⟩
            rcases mem_updateA_decCap hkv' with ⟨kv, hkv, he, hicu, hbeds⟩
            exact ⟨kv, hkv, he ▸ hid, fun hc => lt_of_lt_of_le (hi hc) hicu,
              fun hc => lt_of_lt_of_le (hb hc) hbeds⟩

theorem buildCap_from_msg_aux :
    ∀ (hs : List HospMsg) (m₀ : List (String × HCap)) (kv : String × HCap),
      kv ∈ hs.foldl (fun m h => setA h.agent_id
        ⟨h.available_beds, h.icu_available, h.location, h.priority_score, h.name⟩ m) m₀ →
      kv ∈ m₀ ∨ ∃ hm ∈ hs, hm.agent_id = kv.1 ∧
        kv.2.icu = hm.icu_available ∧ kv.2.beds = hm.available_beds
  | [], m₀, kv, h => Or.inl h
  | hm :: hs, m₀, kv, h => by
      rcases buildCap_from_msg_aux hs _ kv h with h1 | h1
      · rcases mem_setA h1 with h2 | h2
        · exact Or.inr ⟨hm, by simp, by simp [h2], by simp [h2], by simp [h2]⟩
        · exact Or.inl h2
      · rcases h1 with ⟨hm', hmem, he⟩
        exact Or.inr ⟨hm', List.mem_cons_of_mem _ hmem, he⟩

theorem buildCap_from_msg (h : kv ∈ buildCap hs) :
    ∃ hm ∈ hs, hm.agent_id = kv.1 ∧
      kv.2.icu = hm.icu_available ∧ kv.2.beds = hm.available_beds := by
  rcases buildCap_from_msg_aux hs [] kv h with h1 | h1
  · cases h1
  · exact h1

/-- C1 (amended): every proposal produced by the patient–hospital matching
targets a hospital whose capacity class *required by the source's test*
(`severity == "critical"` needs ICU, every other severity — including
`"high"` — needs a general bed) was positive in that hospital's message. -/
theorem assign_respects_required_capacity_class (O : Oracles)
    (patients : List WPatient) (hospitals : List HospMsg) (prs : Priorities)
    (a : PAssign) (ha : a ∈ assignPatientsToHospitals O patients hospitals prs) :
    ∃ hm ∈ hospitals, hm.agent_id = a.assigned_hospital ∧
      (a.patient_severity = "critical" → 0 < hm.icu_available) ∧
      (a.patient_severity ≠ "critical" → 0 < hm.available_beds) := by
  rcases assignLoop_target_has_capacity O prs _ _ a ha with ⟨kv, hkv, hid, hi, hb⟩
  rcases buildCap_from_msg hkv with ⟨hm, hmem, hagent, hicu, hbeds⟩
  exact ⟨hm, hmem, hagent.trans hid, fun hc => by
    have := hi hc; omega, fun hc => by have := hb hc; omega⟩

/-- A hospital message with five free ICU slots but one general bed. -/
def icuRichHosp : HospMsg :=
  { agent_id := "h1", name := "H1", location := (0, 0), available_beds := 1,
    icu_available := 5, oxygen_units := 100, requests := [],
    priority_score := 0.5 }

/-- An acuity-2 (`"high"` severity) waiting patient. -/
def highPatient1 : WPatient := ⟨"p1", "high", (0, 0), "waiting", none⟩

/-- A second acuity-2 waiting patient. -/
def highPatient2 : WPatient := ⟨"p2", "high", (0, 0), "waiting", none⟩

/-- Witness for `assign_respects_required_capacity_class` at the concrete
one-hospital, one-patient configuration. -/
theorem assign_respects_required_capacity_class_witness :
    ∃ hm ∈ [icuRichHosp], hm.agent_id = "h1" ∧
      ("high" = "critical" → 0 < hm.icu_available) ∧
      ("high" ≠ "critical" → 0 < hm.available_beds) := by
  have hmap : (assignPatientsToHospitals Odefault [highPatient1] [icuRichHosp]
      ⟨[]⟩).map (fun a => (a.patient_id, a.patient_severity, a.assigned_hospital))
      = [("p1", "high", "h1")] := by decide
  cases hres : assignPatientsToHospitals Odefault [highPatient1] [icuRichHosp] ⟨[]⟩
    with
  | nil => rw [hres] at hmap; cases hmap
  | cons a rest =>
      rw [hres] at hmap
      simp only [List.map_cons, List.cons.injEq, Prod.mk.injEq] at hmap
      have hmem : a ∈ assignPatientsToHospitals Odefault [highPatient1]
          [icuRichHosp] ⟨[]⟩ := by rw [hres]; exact List.mem_cons_self a rest
      rcases assign_respects_required_capacity_class Odefault [highPatient1]
        [icuRichHosp] ⟨[]⟩ a hmem with ⟨hm, hmmem, hid, hi, hb⟩
      refine ⟨hm, hmmem, ?_, ?_, ?_⟩
      · rw [hid, hmap.1.2.2]
      · rw [← hmap.1.2.1]; exact hi
      · rw [← hmap.1.2.1]; exact hb

/-- C1 counterexample: two acuity-2 (`"high"`) patients and one hospital
with five free ICU slots but a single general bed.  The engine assigns the
first patient to the general-bed pool and leaves the second waiting even
though ICU capacity abounds — so proposals do *not* place acuity-2
patients in ICU slots. -/
theorem high_acuity_routed_to_general_bed :
    (assignPatientsToHospitals Odefault [highPatient1, highPatient2]
        [icuRichHosp] ⟨[]⟩).map
        (fun a => (a.patient_id, a.patient_severity, a.assigned_hospital))
      = [("p1", "high", "h1")]
    ∧ icuRichHosp.icu_available = 5 ∧ icuRichHosp.available_beds = 1 := by
  refine ⟨by decide, by decide, by decide⟩

/-!
## C2: no overcommit within one negotiation round
-/

/-- ICU slots the tentative capacity map holds for `hid` (0 when absent or
negative). -/
def capIcuAt (m : List (String × HCap)) (hid : String) : Nat :=
  match lookupA hid m with
  | some hc => hc.icu.toNat
  | none => 0

/-- General beds the tentative capacity map holds for `hid`. -/
def capBedsAt (m : List (String × HCap)) (hid : String) : Nat :=
  match lookupA hid m with
  | some hc => hc.beds.toNat
  | none => 0

theorem buildCap_nodup_aux :
    ∀ (hs : List HospMsg) (m₀ : List (String × HCap)), (keysOf m₀).Nodup →
      (keysOf (hs.foldl (fun m h => setA h.agent_id
        ⟨h.available_beds, h.icu_available, h.location, h.priority_score,
          h.name⟩ m) m₀)).Nodup
  | [], _, hn => hn
  | _ :: hs, _, hn => buildCap_nodup_aux hs _ (keysOf_setA_nodup hn)

theorem buildCap_nodup (hs : List HospMsg) : (keysOf (buildCap hs)).Nodup :=
  buildCap_nodup_aux hs [] (by simp [keysOf])

theorem findBestHospital_lookup (O : Oracles) (p : WPatient)
    (cap : List (String × HCap)) (prs : Priorities)
    (hn : (keysOf cap).Nodup) (hfind : findBestHospital O p cap prs = some best) :
    ∃ hc, lookupA best.id cap = some hc ∧
      (p.severity = "critical" → 0 < hc.icu) ∧
      (p.severity ≠ "critical" → 0 < hc.beds) := by
  rcases findBestHospital_spec O p cap prs hfind with ⟨kv, hkv, hkid, hi, hb⟩
  refine ⟨kv.2, ?_, hi, hb⟩
  have : (best.id, kv.2) ∈ cap := by
    have : kv = (best.id, kv.2) := by
      rw [← hkid]
    rw [← this]; exact hkv
  exact lookupA_of_mem_nodup this hn

theorem assignLoop_icu_count (O : Oracles) (prs : Priorities) (hid : String) :
    ∀ (ps : List WPatient) (cap : List (String × HCap)), (keysOf cap).Nodup →
      (assignLoop O prs ps cap).countP
        (fun a => decide (a.assigned_hospital = hid ∧
          a.patient_severity = "critical")) ≤ capIcuAt cap hid
  | [], cap, _ => by simp [assignLoop]
  | p :: ps, cap, hn => by
      rw [assignLoop]
      cases hfind : findBestHospital O p cap prs with
      | none => exact assignLoop_icu_count O prs hid ps cap hn
      | some best =>
          have hn' : (keysOf (updateA best.id (decCap p.severity) cap)).Nodup := by
            rw [keysOf_updateA]; exact hn
          have ih := assignLoop_icu_count O prs hid ps _ hn'
          rcases findBestHospital_lookup O p cap prs hn hfind with ⟨hc, hlook, hi, hb⟩
          by_cases hsev : p.severity = "critical"
          · by_cases hid_eq : best.id = hid
            · have hpos : 0 < hc.icu := hi hsev
              have h1 : capIcuAt cap hid = hc.icu.toNat := by
                simp [capIcuAt, ← hid_eq, hlook]
              have h2 : capIcuAt (updateA best.id (decCap p.severity) cap) hid
                  = (hc.icu - 1).toNat := by
                rw [← hid_eq]
                simp [capIcuAt, lookupA_updateA_self, hlook, decCap, hsev]
              rw [h2] at ih
              rw [List.countP_cons_of_pos _ _ (by simp [hid_eq, hsev]), h1]
              omega
            · have h2 : capIcuAt (updateA best.id (decCap p.severity) cap) hid
                  = capIcuAt cap hid := by
                simp [capIcuAt, lookupA_updateA_ne hid_eq]
              rw [h2] at ih
              rw [List.countP_cons_of_neg _ _ (by simp [hid_eq])]
              omega
          · have h2 : capIcuAt (updateA best.id (decCap p.severity) cap) hid
                = capIcuAt cap hid := by
              by_cases hid_eq : best.id = hid
              · rw [← hid_eq]
                simp [capIcuAt, lookupA_updateA_self, hlook, decCap, hsev]
              · simp [capIcuAt, lookupA_updateA_ne hid_eq]
            rw [h2] at ih
            rw [List.countP_cons_of_neg _ _ (by simp [hsev])]
            omega

theorem assignLoop_beds_count (O : Oracles) (prs : Priorities) (hid : String) :
    ∀ (ps : List WPatient) (cap : List (String × HCap)), (keysOf cap).Nodup →
      (assignLoop O prs ps cap).countP
        (fun a => decide (a.assigned_hospital = hid ∧
          a.patient_severity ≠ "critical")) ≤ capBedsAt cap hid
  | [], cap, _ => by simp [assignLoop]
  | p :: ps, cap, hn => by
      rw [assignLoop]
      cases hfind : findBestHospital O p cap prs with
      | none => exact assignLoop_beds_count O prs hid ps cap hn
      | some best =>
          have hn' : (keysOf (updateA best.id (decCap p.severity) cap)).Nodup := by
            rw [keysOf_updateA]; exact hn
          have ih := assignLoop_beds_count O prs hid ps _ hn'
          rcases findBestHospital_lookup O p cap prs hn hfind with ⟨hc, hlook, hi, hb⟩
          by_cases hsev : p.severity = "critical"
          · have h2 : capBedsAt (updateA best.id (decCap p.severity) cap) hid
                = capBedsAt cap hid := by
              by_cases hid_eq : best.id = hid
              · rw [← hid_eq]
                simp [capBedsAt, lookupA_updateA_self, hlook, decCap, hsev]
              · simp [capBedsAt, lookupA_updateA_ne hid_eq]
            rw [h2] at ih
            rw [List.countP_cons_of_neg _ _ (by simp [hsev])]
            omega
          · by_cases hid_eq : best.id = hid
            · have hpos : 0 < hc.beds := hb hsev
              have h1 : capBedsAt cap hid = hc.beds.toNat := by
                simp [capBedsAt, ← hid_eq, hlook]
              have h2 : capBedsAt (updateA best.id (decCap p.severity) cap) hid
                  = (hc.beds - 1).toNat := by
                rw [← hid_eq]
                simp [capBedsAt, lookupA_updateA_self, hlook, decCap, hsev]
              rw [h2] at ih
              rw [List.countP_cons_of_pos _ _ (by simp [hid_eq, hsev]), h1]
              omega
            · have h2 : capBedsAt (updateA best.id (decCap p.severity) cap) hid
                  = capBedsAt cap hid := by
                simp [capBedsAt, lookupA_updateA_ne hid_eq]
              rw [h2] at ih
              rw [List.countP_cons_of_neg _ _ (by simp [hid_eq])]
              omega

/-- C2: within one negotiation round, the number of assignments that
consume a hospital's ICU (severity `"critical"`) is bounded by the
`icu_available` value the tentative capacity map holds for it at the start
of the round, and likewise general-bed assignments by `available_beds` —
the engine decrements the local tentative copy and skips hospitals whose
counter is non-positive. -/
theorem no_overcommit_within_round (O : Oracles) (prs : Priorities)
    (patients : List WPatient) (hospitals : List HospMsg) (hid : String) :
    (assignPatientsToHospitals O patients hospitals prs).countP
        (fun a => decide (a.assigned_hospital = hid ∧
          a.patient_severity = "critical")) ≤ capIcuAt (buildCap hospitals) hid
    ∧ (assignPatientsToHospitals O patients hospitals prs).countP
        (fun a => decide (a.assigned_hospital = hid ∧
          a.patient_severity ≠ "critical")) ≤ capBedsAt (buildCap hospitals) hid :=
  ⟨assignLoop_icu_count O prs hid _ _ (buildCap_nodup hospitals),
   assignLoop_beds_count O prs hid _ _ (buildCap_nodup hospitals)⟩

/-!
## C3: constraint-checker partition against running counters
-/

theorem remGet_some (k : String) (m : List (String × Int)) :
    remGet (some k) m = (lookupA k m).getD 0 := rfl

theorem filterValidLoop_length :
    ∀ (props : List CAlloc) (rb ri : List (String × Int)),
      (filterValidLoop props rb ri).1.length + (filterValidLoop props rb ri).2.length
        = props.length
  | [], _, _ => rfl
  | a :: rest, rb, ri => by
      by_cases hsev : a.patient_severity = some "critical"
      · by_cases hrem : remGet a.assigned_hospital ri > 0 <;>
          simp only [filterValidLoop, hsev, hrem, if_true, if_false, ite_true,
            ite_false, List.length_cons] <;>
          have := filterValidLoop_length rest rb (remDec a.assigned_hospital ri) <;>
          have := filterValidLoop_length rest rb ri <;> omega
      · by_cases hrem : remGet a.assigned_hospital rb > 0 <;>
          simp only [filterValidLoop, hsev, hrem, if_true, if_false, ite_true,
            ite_false, List.length_cons] <;>
          have := filterValidLoop_length rest (remDec a.assigned_hospital rb) ri <;>
          have := filterValidLoop_length rest rb ri <;> omega

theorem filterValidLoop_rejected_reason :
    ∀ (props : List CAlloc) (rb ri : List (String × Int)) (x : CAlloc),
      x ∈ (filterValidLoop props rb ri).2 → x.rejection_reason.isSome
  | [], _, _, x, hx => by cases hx
  | a :: rest, rb, ri, x, hx => by
      by_cases hsev : a.patient_severity = some "critical"
      · by_cases hrem : remGet a.assigned_hospital ri > 0
        · simp only [filterValidLoop, hsev, hrem, if_true, ite_true] at hx
          exact filterValidLoop_rejected_reason rest rb _ x hx
        · simp only [filterValidLoop, hsev, hrem, if_true, if_false, ite_true,
            ite_false] at hx
          rcases List.mem_cons.mp hx with h1 | h1
          · simp [h1]
          · exact filterValidLoop_rejected_reason rest rb ri x h1
      · by_cases hrem : remGet a.assigned_hospital rb > 0
        · simp only [filterValidLoop, hsev, hrem, if_true, if_false, ite_true,
            ite_false] at hx
          exact filterValidLoop_rejected_reason rest _ ri x hx
        · simp only [filterValidLoop, hsev, hrem, if_true, if_false, ite_true,
            ite_false] at hx
          rcases List.mem_cons.mp hx with h1 | h1
          · simp [h1]
          · exact filterValidLoop_rejected_reason rest rb ri x h1

theorem filterValidLoop_icu_count (hid : String) :
    ∀ (props : List CAlloc) (rb ri : List (String × Int)),
      (filterValidLoop props rb ri).1.countP
        (fun a => decide (a.assigned_hospital = some hid ∧
          a.patient_severity = some "critical"))
        ≤ ((lookupA hid ri).getD 0).toNat
  | [], _, _ => by simp [filterValidLoop]
  | a :: rest, rb, ri => by
      by_cases hsev : a.patient_severity = some "critical"
      · by_cases hrem : remGet a.assigned_hospital ri > 0
        · simp only [filterValidLoop, hsev, hrem, if_true, ite_true]
          cases hhosp : a.assigned_hospital with
          | none => rw [hhosp] at hrem; simp [remGet] at hrem
          | some k =>
              rw [hhosp] at hrem
              rw [remGet_some] at hrem
              cases hlook : lookupA k ri with
              | none => rw [hlook] at hrem; simp at hrem
              | some v =>
                  rw [hlook] at hrem; simp at hrem
                  by_cases hk : k = hid
                  · subst hk
                    have ih := filterValidLoop_icu_count k rest rb
                      (remDec (some k) ri)
                    have h2 : lookupA k (remDec (some k) ri) = some (v - 1) := by
                      simp [remDec, lookupA_updateA_self, hlook]
                    rw [h2] at ih
                    rw [List.countP_cons_of_pos _ _ (by simp [hhosp, hsev])]
                    rw [hlook]
                    simp only [Option.getD_some] at ih ⊢
                    omega
                  · have ih := filterValidLoop_icu_count hid rest rb
                      (remDec (some k) ri)
                    have h2 : lookupA hid (remDec (some k) ri) = lookupA hid ri := by
                      simp [remDec, lookupA_updateA_ne hk]
                    rw [h2] at ih
                    rw [List.countP_cons_of_neg _ _ (by simp [hhosp, hk])]
                    exact ih
        · simp only [filterValidLoop, hsev, hrem, if_true, if_false, ite_true,
            ite_false]
          exact filterValidLoop_icu_count hid rest rb ri
      · by_cases hrem : remGet a.assigned_hospital rb > 0
        · simp only [filterValidLoop, hsev, hrem, if_true, if_false, ite_true,
            ite_false]
          rw [List.countP_cons_of_neg _ _ (by simp [hsev])]
          exact filterValidLoop_icu_count hid rest _ ri
        · simp only [filterValidLoop, hsev, hrem, if_true, if_false, ite_true,
            ite_false]
          exact filterValidLoop_icu_count hid rest rb ri

theorem filterValidLoop_beds_count (hid : String) :
    ∀ (props : List CAlloc) (rb ri : List (String × Int)),
      (filterValidLoop props rb ri).1.countP
        (fun a => decide (a.assigned_hospital = some hid ∧
          a.patient_severity ≠ some "critical"))
        ≤ ((lookupA hid rb).getD 0).toNat
  | [], _, _ => by simp [filterValidLoop]
  | a :: rest, rb, ri => by
      by_cases hsev : a.patient_severity = some "critical"
      · by_cases hrem : remGet a.assigned_hospital ri > 0
        · simp only [filterValidLoop, hsev, hrem, if_true, ite_true]
          rw [List.countP_cons_of_neg _ _ (by simp [hsev])]
          exact filterValidLoop_beds_count hid rest rb _
        · simp only [filterValidLoop, hsev, hrem, if_true, if_false, ite_true,
            ite_false]
          exact filterValidLoop_beds_count hid rest rb ri
      · by_cases hrem : remGet a.assigned_hospital rb > 0
        · simp only [filterValidLoop, hsev, hrem, if_true, if_false, ite_true,
            ite_false]
          cases hhosp : a.assigned_hospital with
          | none => rw [hhosp] at hrem; simp [remGet] at hrem
          | some k =>
              rw [hhosp] at hrem
              rw [remGet_some] at hrem
              cases hlook : lookupA k rb with
              | none => rw [hlook] at hrem; simp at hrem
              | some v =>
                  rw [hlook] at hrem; simp at hrem
                  by_cases hk : k = hid
                  · subst hk
                    have ih := filterValidLoop_beds_count k rest
                      (remDec (some k) rb) ri
                    have h2 : lookupA k (remDec (some k) rb) = some (v - 1) := by
                      simp [remDec, lookupA_updateA_self, hlook]
                    rw [h2] at ih
                    rw [List.countP_cons_of_pos _ _ (by simp [hhosp, hsev])]
                    rw [hlook]
                    simp only [Option.getD_some] at ih ⊢
                    omega
                  · have ih := filterValidLoop_beds_count hid rest
                      (remDec (some k) rb) ri
                    have h2 : lookupA hid (remDec (some k) rb) = lookupA hid rb := by
                      simp [remDec, lookupA_updateA_ne hk]
                    rw [h2] at ih
                    rw [List.countP_cons_of_neg _ _ (by simp [hhosp, hk])]
                    exact ih
        · simp only [filterValidLoop, hsev, hrem, if_true, if_false, ite_true,
            ite_false]
          exact filterValidLoop_beds_count hid rest rb ri

/-- C3: `filter_valid_allocations` partitions the proposals (no proposal
is lost or duplicated), checks each one against a running remaining-ICU /
remaining-bed counter seeded from the ledgers — so per hospital at most
`icu_available` critical and `available_beds` non-critical proposals are
accepted — and every rejected proposal carries a rejection reason. -/
theorem filter_valid_partition_and_running_counters (proposed : List CAlloc)
    (hospitals : List (String × HLedger)) (hid : String) :
    (filterValidAllocations proposed hospitals).1.length
      + (filterValidAllocations proposed hospitals).2.length = proposed.length
    ∧ (filterValidAllocations proposed hospitals).1.countP
        (fun a => decide (a.assigned_hospital = some hid ∧
          a.patient_severity = some "critical"))
        ≤ (((lookupA hid hospitals).map (fun h : HLedger => h.icu_available)).getD 0).toNat
    ∧ (filterValidAllocations proposed hospitals).1.countP
        (fun a => decide (a.assigned_hospital = some hid ∧
          a.patient_severity ≠ some "critical"))
        ≤ (((lookupA hid hospitals).map (fun h : HLedger => h.available_beds)).getD 0).toNat
    ∧ ∀ x ∈ (filterValidAllocations proposed hospitals).2,
        x.rejection_reason.isSome := by
  refine ⟨filterValidLoop_length proposed _ _, ?_, ?_,
    fun x hx => filterValidLoop_rejected_reason proposed _ _ x hx⟩
  · have h := filterValidLoop_icu_count hid proposed
      (hospitals.map (fun kv => (kv.1, kv.2.available_beds)))
      (hospitals.map (fun kv => (kv.1, kv.2.icu_available)))
    rwa [lookupA_map_val] at h
  · have h := filterValidLoop_beds_count hid proposed
      (hospitals.map (fun kv => (kv.1, kv.2.available_beds)))
      (hospitals.map (fun kv => (kv.1, kv.2.icu_available)))
    rwa [lookupA_map_val] at h

/-- Two critical proposals targeting the same hospital. -/
def twoCritProps : List CAlloc :=
  [⟨some "h1", some "critical", none⟩, ⟨some "h1", some "critical", none⟩]

/-- A ledger with exactly one remaining ICU slot at `h1`. -/
def oneIcuSlotLedger : List (String × HLedger) := [("h1", ⟨5, 1⟩)]

/-- Witness for `filter_valid_partition_and_running_counters`: with one
remaining ICU slot and two critical proposals, one is accepted, the other
rejected with a reason. -/
theorem filter_valid_partition_witness :
    (filterValidAllocations twoCritProps oneIcuSlotLedger).1.length
        + (filterValidAllocations twoCritProps oneIcuSlotLedger).2.length = 2
    ∧ ((⟨some "h1", some "critical", some "No ICU capacity"⟩ : CAlloc)
        |>.rejection_reason.isSome) = true := by
  constructor
  · exact (filter_valid_partition_and_running_counters twoCritProps
      oneIcuSlotLedger "h1").1
  · exact (filter_valid_partition_and_running_counters twoCritProps
      oneIcuSlotLedger "h1").2.2.2
      ⟨some "h1", some "critical", some "No ICU capacity"⟩ (by decide)

/-!
## C6: the depot scenario (inventory 50, requests 40 and 30)
-/

/-- The depot message with 50 units of oxygen. -/
def depotMsg50 : SupplyMsg := ⟨"depot", [("oxygen", 50)], 4⟩

/-- Hospital message requesting 40 oxygen at `critical` urgency. -/
def oxyReqHosp1 : HospMsg :=
  { agent_id := "h1", name := "H1", location := (0, 0), available_beds := 5,
    icu_available := 1, oxygen_units := 10,
    requests := [⟨"oxygen", 40, "critical", "low oxygen"⟩], priority_score := 0.5 }

/-- Hospital message requesting 30 oxygen at `high` urgency. -/
def oxyReqHosp2 : HospMsg :=
  { oxyReqHosp1 with
    agent_id := "h2"
    name := "H2"
    requests := [⟨"oxygen", 30, "high", "low oxygen"⟩] }

/-- Hospital message requesting 20 oxygen at `medium` urgency (reaches the
depot after the inventory is exhausted). -/
def oxyReqHosp3 : HospMsg :=
  { oxyReqHosp1 with
    agent_id := "h3"
    name := "H3"
    requests := [⟨"oxygen", 20, "medium", "low oxygen"⟩] }

/-- The three merged requests in priority order. -/
def orderedOxyReqs : List FullRequest :=
  [⟨"oxygen", 40, "critical", "low oxygen", "h1", "H1", 0.5⟩,
   ⟨"oxygen", 30, "high", "low oxygen", "h2", "H2", 0.5⟩,
   ⟨"oxygen", 20, "medium", "low oxygen", "h3", "H3", 0.5⟩]

/-- C6: with depot inventory `oxygen = 50` and pending requests of 40, 30
(and 20) oxygen in priority order, `_allocate_supplies` grants 40 to the
first and exactly `min(30, 10) = 10` to the second, drives the tentative
inventory to 0, and gives the third request no allocation at all (it is
skipped, not an error). -/
theorem supply_allocation_scenario_50_40_30 :
    (allocateSupplies [oxyReqHosp1, oxyReqHosp2, oxyReqHosp3] depotMsg50).map
        (fun a => (a.hospital_id, a.resource, a.quantity))
      = [("h1", "oxygen", 40), ("h2", "oxygen", 10)]
    ∧ (allocLoop orderedOxyReqs [("oxygen", 50)]).1 = [("oxygen", 0)]
    ∧ (allocLoop orderedOxyReqs [("oxygen", 50)]).2.map
        (fun a => (a.hospital_id, a.quantity)) = [("h1", 40), ("h2", 10)] := by
  exact ⟨by decide, by decide, by decide⟩

/-!
## C5: the hospital ledger invariant
-/

/-- The hospital capacity invariant of the spec's data model. -/
def HospitalA.invariant (h : HospitalA) : Prop :=
  0 ≤ h.available_beds ∧ h.available_beds ≤ h.total_beds ∧
  0 ≤ h.icu_available ∧ h.icu_available ≤ h.icu_beds ∧ 0 ≤ h.oxygen_units

theorem acceptPatient_invariant (h : HospitalA) (now pid : String) (esi : Nat)
    (hinv : h.invariant) : (h.acceptPatient now pid esi).1.invariant := by
  obtain ⟨h1, h2, h3, h4, h5⟩ := hinv
  rw [HospitalA.acceptPatient]
  by_cases hcan : h.canAcceptPatient esi = true
  · simp only [hcan, not_true, if_neg, not_false_iff]
    by_cases hesi : esi ≤ 2
    · have hicu : 0 < h.icu_available := by
        have := hcan
        simp only [HospitalA.canAcceptPatient, hesi, if_pos, Bool.and_eq_true,
          decide_eq_true_eq] at this
        exact this.1.1
      simp only [hesi, if_pos]
      exact ⟨by simpa using h1, by simpa using h2, by simp; omega, by simp; omega,
        by simpa using h5⟩
    · have hbeds : 0 < h.available_beds := by
        have := hcan
        simp only [HospitalA.canAcceptPatient, hesi, if_neg, not_false_iff,
          Bool.and_eq_true, decide_eq_true_eq] at this
        exact this.1
      simp only [hesi, if_neg, not_false_iff]
      exact ⟨by simp; omega, by simp; omega, by simpa using h3, by simpa using h4,
        by simpa using h5⟩
  · have : ¬h.canAcceptPatient esi := by simpa using hcan
    simp only [this, if_pos, not_false_iff]
    exact ⟨h1, h2, h3, h4, h5⟩

theorem update_invariant (h : HospitalA) (tick : Nat) (hinv : h.invariant) :
    (h.update tick).1.invariant := by
  obtain ⟨h1, h2, h3, h4, h5⟩ := hinv
  rw [HospitalA.update]
  set h' : HospitalA :=
    { h with oxygen_units := max 0 (h.oxygen_units - h.oxygenConsumptionLpm * 5) }
    with hh'
  have hinv' : h'.invariant :=
    ⟨h1, h2, h3, h4, le_max_left 0 _⟩
  by_cases hcond : tick % 5 = 0 ∧ ¬h'.patients_admitted.isEmpty
  · simp only [hcond, if_pos, and_true, true_and]
    obtain ⟨i1, i2, i3, i4, i5⟩ := hinv'
    cases hlast : (pySorted
        (fun p q => decide ((-(p.esi_level : Int)) ≤ -(q.esi_level : Int)))
        h'.patients_admitted).getLast? with
    | none => exact ⟨i1, i2, i3, i4, i5⟩
    | some discharged =>
        by_cases hunit : discharged.unit = "ICU"
        · simp only [hunit, if_pos]
          exact ⟨by simpa using i1, by simpa using i2, by simp; omega,
            by simp, by simp⟩
        · simp only [hunit, if_neg, not_false_iff]
          exact ⟨by simp; omega, by simp, by simpa using i3,
            by simpa using i4, by simp⟩
  · simp only [hcond, if_neg, not_false_iff]
    exact hinv'

theorem handleSupplyAllocation_invariant (h : HospitalA) (st : String) (q : ℚ)
    (hq : 0 ≤ q) (hinv : h.invariant) :
    (h.handleSupplyAllocation st q).invariant := by
  obtain ⟨h1, h2, h3, h4, h5⟩ := hinv
  rw [HospitalA.handleSupplyAllocation]
  by_cases hst : st = "oxygen"
  · simp only [hst, if_pos]
    exact ⟨by simpa using h1, by simpa using h2, by simpa using h3,
      by simpa using h4, by simp; linarith⟩
  · simp only [hst, if_neg, not_false_iff]
    exact ⟨h1, h2, h3, h4, h5⟩

/-- C5: the ledger invariant `0 ≤ available_beds ≤ total_beds`,
`0 ≤ icu_available ≤ icu_beds`, `0 ≤ oxygen` is preserved by guarded
patient admission, by the per-tick update (oxygen clamped at zero,
discharge capped at total capacity) and by a (non-negative) supply
delivery. -/
theorem hospital_invariant_preserved (h : HospitalA) (now pid : String)
    (esi : Nat) (tick : Nat) (st : String) (q : ℚ)
    (hinv : h.invariant) (hq : 0 ≤ q) :
    (h.acceptPatient now pid esi).1.invariant
    ∧ (h.update tick).1.invariant
    ∧ (h.handleSupplyAllocation st q).invariant :=
  ⟨acceptPatient_invariant h now pid esi hinv,
   update_invariant h tick hinv,
   handleSupplyAllocation_invariant h st q hq hinv⟩

/-- A concrete hospital state satisfying the invariant. -/
def sampleHospital : HospitalA :=
  { agent_id := "hospital_a", name := "City General Hospital",
    location := (25, 30), total_beds := 100, available_beds := 10,
    icu_beds := 10, icu_available := 1, oxygen_units := 3000,
    doctors_on_duty := 12, nurses_on_duty := 36, patient_inflow_rate := 8,
    patients_admitted := [], incoming_ambulances := [] }

/-- Witness for `hospital_invariant_preserved` at a concrete hospital,
ESI level 1, tick 5 and a 40-unit oxygen delivery. -/
theorem hospital_invariant_preserved_witness :
    (sampleHospital.acceptPatient "t0" "p1" 1).1.invariant
    ∧ (sampleHospital.update 5).1.invariant
    ∧ (sampleHospital.handleSupplyAllocation "oxygen" 40).invariant :=
  hospital_invariant_preserved sampleHospital "t0" "p1" 1 5 "oxygen" 40
    (by constructor <;> [decide; constructor] <;>
      [decide; constructor] <;> [decide; constructor] <;> [decide; decide])
    (by decide)

/-!
## C7: failure-alert deduplication by condition type
-/

theorem handleNewFailures_no_realert (now : String) (t : String) :
    ∀ (fs : List Failure) (active : List ActiveFailure),
      t ∈ active.map (fun af => af.ftype) →
      ∀ r ∈ (handleNewFailures now fs active).2, r.failure.ftype ≠ t
  | [], _, _, r, hr => by cases hr
  | f :: rest, active, ht, r, hr => by
      by_cases hact : active.any (fun af => af.ftype = f.ftype)
      · rw [handleNewFailures] at hr
        simp only [hact, if_pos] at hr
        exact handleNewFailures_no_realert now t rest active ht r hr
      · rw [handleNewFailures] at hr
        simp only [hact, if_neg, not_false_iff] at hr
        rcases List.mem_cons.mp hr with h1 | h1
        · intro he
          apply hact
          rcases List.mem_map.mp ht with ⟨af, hmem, hty⟩
          refine List.any_eq_true.mpr ⟨af, hmem, ?_⟩
          have : r.failure.ftype = f.ftype := by
            rw [h1]; rfl
          simp [hty, ← he, this]
        · have ht' : t ∈ (active ++ [(handleFailure now f).2]).map
              (fun af => af.ftype) := by
            rcases List.mem_map.mp ht with ⟨af, hmem, hty⟩
            exact List.mem_map.mpr ⟨af, List.mem_append_left _ hmem, hty⟩
          exact handleNewFailures_no_realert now t rest _ ht' r h1

theorem handleNewFailures_active_monotone (now : String) :
    ∀ (fs : List Failure) (active : List ActiveFailure) (t : String),
      t ∈ active.map (fun af => af.ftype) →
      t ∈ (handleNewFailures now fs active).1.map (fun af => af.ftype)
  | [], _, _, ht => ht
  | f :: rest, active, t, ht => by
      by_cases hact : active.any (fun af => af.ftype = f.ftype)
      · rw [handleNewFailures]
        simp only [hact, if_pos]
        exact handleNewFailures_active_monotone now rest active t ht
      · rw [handleNewFailures]
        simp only [hact, if_neg, not_false_iff]
        refine handleNewFailures_active_monotone now rest _ t ?_
        rcases List.mem_map.mp ht with ⟨af, hmem, hty⟩
        exact List.mem_map.mpr ⟨af, List.mem_append_left _ hmem, hty⟩

theorem handleNewFailures_count_le_one (now : String) (t : String) :
    ∀ (fs : List Failure) (active : List ActiveFailure),
      (handleNewFailures now fs active).2.countP
        (fun r => decide (r.failure.ftype = t)) ≤ 1
  | [], _ => by simp [handleNewFailures]
  | f :: rest, active => by
      by_cases hact : active.any (fun af => af.ftype = f.ftype)
      · rw [handleNewFailures, if_pos hact]
        exact handleNewFailures_count_le_one now t rest active
      · rw [handleNewFailures, if_neg hact]
        show ((handleFailure now f).1 :: (handleNewFailures now rest
          (active ++ [(handleFailure now f).2])).2).countP
          (fun r => decide (r.failure.ftype = t)) ≤ 1
        by_cases hf : f.ftype = t
        · rw [List.countP_cons_of_pos _ _ (by simp [handleFailure, hf])]
          have hzero : (handleNewFailures now rest
              (active ++ [(handleFailure now f).2])).2.countP
              (fun r => decide (r.failure.ftype = t)) = 0 := by
            apply List.countP_eq_zero.mpr
            intro r hr
            have ht' : t ∈ (active ++ [(handleFailure now f).2]).map
                (fun af => af.ftype) := by
              refine List.mem_map.mpr ⟨(handleFailure now f).2,
                List.mem_append_right _ (by simp), ?_⟩
              simp [handleFailure, hf]
            have := handleNewFailures_no_realert now t rest _ ht' r hr
            simpa using this
          omega
        · rw [List.countP_cons_of_neg _ _ (by simp [handleFailure, hf])]
          exact handleNewFailures_count_le_one now t rest _

theorem handleNewFailures_resp_in_active (now : String) :
    ∀ (fs : List Failure) (active : List ActiveFailure) (r : FailResponse),
      r ∈ (handleNewFailures now fs active).2 →
      r.failure.ftype ∈ (handleNewFailures now fs active).1.map
        (fun af => af.ftype)
  | [], _, r, hr => by cases hr
  | f :: rest, active, r, hr => by
      by_cases hact : active.any (fun af => af.ftype = f.ftype)
      · rw [handleNewFailures] at hr ⊢
        simp only [hact, if_pos] at hr ⊢
        exact handleNewFailures_resp_in_active now rest active r hr
      · rw [handleNewFailures] at hr ⊢
        simp only [hact, if_neg, not_false_iff] at hr ⊢
        rcases List.mem_cons.mp hr with h1 | h1
        · have hty : r.failure.ftype = f.ftype := by rw [h1]; rfl
          rw [hty]
          refine handleNewFailures_active_monotone now rest _ f.ftype ?_
          refine List.mem_map.mpr ⟨(handleFailure now f).2,
            List.mem_append_right _ (by simp), ?_⟩
          simp [handleFailure]
        · exact handleNewFailures_resp_in_active now rest _ r h1

/-- C7: the failure monitor never re-alerts a condition type that is
already active: if `t` is active going into `check_and_handle_failures`,
no response of type `t` is produced; in any single call at most one alert
per type is produced; and every alerted type becomes (and, being active,
stays) active, so the next tick's call cannot re-alert it while it remains
unresolved. -/
theorem failure_alert_dedup_by_type (now : String)
    (active : List ActiveFailure) (hospitals : List (String × HView))
    (ambulances : List (String × AView)) (supply : SView) (t : String) :
    (t ∈ active.map (fun af => af.ftype) →
      ∀ r ∈ (checkAndHandleFailures now active hospitals ambulances supply).2,
        r.failure.ftype ≠ t)
    ∧ (checkAndHandleFailures now active hospitals ambulances supply).2.countP
        (fun r => decide (r.failure.ftype = t)) ≤ 1
    ∧ (∀ r ∈ (checkAndHandleFailures now active hospitals ambulances supply).2,
        r.failure.ftype ∈ (checkAndHandleFailures now active hospitals
          ambulances supply).1.map (fun af => af.ftype)) :=
  ⟨fun ht r hr => handleNewFailures_no_realert now t _ active ht r hr,
   handleNewFailures_count_le_one now t _ active,
   fun r hr => handleNewFailures_resp_in_active now _ active r hr⟩

/-- One healthy hospital (so no bed/oxygen condition triggers). -/
def healthyHView : List (String × HView) := [("h1", ⟨1, 1, 100⟩)]

/-- One ambulance that is unavailable (`is_available = False`). -/
def noAmbAView : List (String × AView) := [("a1", ⟨false, 50⟩)]

/-- A well-stocked depot view. -/
def stockedSView : SView := ⟨[("oxygen", 100), ("medicine", 100)]⟩

/-- Witness for `failure_alert_dedup_by_type`: with zero available fueled
ambulances, the first call raises exactly one `no_ambulances` alert and
the second call — the condition persisting — raises none. -/
theorem failure_alert_dedup_by_type_witness :
    (checkAndHandleFailures "t1" [] healthyHView noAmbAView stockedSView).2.countP
        (fun r => decide (r.failure.ftype = "no_ambulances")) = 1
    ∧ (checkAndHandleFailures "t2"
        (checkAndHandleFailures "t1" [] healthyHView noAmbAView stockedSView).1
        healthyHView noAmbAView stockedSView).2.countP
        (fun r => decide (r.failure.ftype = "no_ambulances")) = 0 := by
  constructor
  · decide
  · have hded := (failure_alert_dedup_by_type "t2"
      (checkAndHandleFailures "t1" [] healthyHView noAmbAView stockedSView).1
      healthyHView noAmbAView stockedSView "no_ambulances").1 (by decide)
    apply List.countP_eq_zero.mpr
    intro r hr
    simpa using hded r hr

/-!
## C8: ambulance selection inside the negotiation engine
-/

/-- The projected ETA the engine computes for an ambulance message
(defaulting the absent `location` key to `(50, 50)`). -/
def msgEta (O : Oracles) (m : AmbMsg) (patientLoc hospitalLoc : Loc) : ℚ :=
  calcEta O (m.location.getD (50, 50)) patientLoc hospitalLoc

theorem findBestAmb_mono (O : Oracles) (ploc hloc : Loc) :
    ∀ (pool : List AmbMsg) (acc be : AmbMsg × ℚ),
      pool.foldl (fun acc amb =>
        let eta := calcEta O (amb.location.getD (50, 50)) ploc hloc
        match acc with
        | none => some (amb, eta)
        | some b => if eta < b.2 then some (amb, eta) else acc) (some acc)
        = some be → be.2 ≤ acc.2
  | [], acc, be, h => by
      simp only [List.foldl_nil, Option.some.injEq] at h
      rw [← h]
  | amb :: rest, acc, be, h => by
      simp only [List.foldl_cons] at h
      by_cases hlt : calcEta O (amb.location.getD (50, 50)) ploc hloc < acc.2
      · simp only [hlt, if_pos] at h
        have := findBestAmb_mono O ploc hloc rest _ be h
        exact le_trans this (le_of_lt hlt)
      · simp only [hlt, if_neg, not_false_iff] at h
        exact findBestAmb_mono O ploc hloc rest acc be h

theorem findBestAmb_mem_val (O : Oracles) (ploc hloc : Loc) :
    ∀ (pool : List AmbMsg) (acc : Option (AmbMsg × ℚ)) (be : AmbMsg × ℚ),
      pool.foldl (fun acc amb =>
        let eta := calcEta O (amb.location.getD (50, 50)) ploc hloc
        match acc with
        | none => some (amb, eta)
        | some b => if eta < b.2 then some (amb, eta) else acc) acc = some be →
      (∃ m ∈ pool, be = (m, msgEta O m ploc hloc)) ∨ acc = some be
  | [], acc, be, h => Or.inr (by simpa using h)
  | amb :: rest, acc, be, h => by
      simp only [List.foldl_cons] at h
      rcases findBestAmb_mem_val O ploc hloc rest _ be h with h1 | h1
      · rcases h1 with ⟨m, hm, he⟩
        exact Or.inl ⟨m, List.mem_cons_of_mem _ hm, he⟩
      · cases acc with
        | none =>
            simp only [Option.some.injEq] at h1
            exact Or.inl ⟨amb, by simp, by rw [← h1]; rfl⟩
        | some b =>
            by_cases hlt : calcEta O (amb.location.getD (50, 50)) ploc hloc < b.2
            · simp only [hlt, if_pos, Option.some.injEq] at h1
              exact Or.inl ⟨amb, by simp, by rw [← h1]; rfl⟩
            · simp only [hlt, if_neg, not_false_iff] at h1
              exact Or.inr h1

theorem findBestAmb_min (O : Oracles) (ploc hloc : Loc) :
    ∀ (pool : List AmbMsg) (acc : Option (AmbMsg × ℚ)) (be : AmbMsg × ℚ),
      pool.foldl (fun acc amb =>
        let eta := calcEta O (amb.location.getD (50, 50)) ploc hloc
        match acc with
        | none => some (amb, eta)
        | some b => if eta < b.2 then some (amb, eta) else acc) acc = some be →
      ∀ m ∈ pool, be.2 ≤ msgEta O m ploc hloc
  | [], _, _, _, m, hm => by cases hm
  | amb :: rest, acc, be, h, m, hm => by
      simp only [List.foldl_cons] at h
      rcases List.mem_cons.mp hm with h1 | h1
      · subst h1
        cases acc with
        | none => exact findBestAmb_mono O ploc hloc rest _ be h
        | some b =>
            by_cases hlt : calcEta O (m.location.getD (50, 50)) ploc hloc < b.2
            · simp only [hlt, if_pos] at h
              exact findBestAmb_mono O ploc hloc rest _ be h
            · simp only [hlt, if_neg, not_false_iff] at h
              have := findBestAmb_mono O ploc hloc rest b be h
              exact le_trans this (not_lt.mp hlt)
      · exact findBestAmb_min O ploc hloc rest _ be h m h1

theorem findBestAmb_spec (O : Oracles) (pool : List AmbMsg) (ploc hloc : Loc)
    (be : AmbMsg × ℚ) (h : findBestAmb O pool ploc hloc = some be) :
    be.1 ∈ pool ∧ be.2 = msgEta O be.1 ploc hloc ∧
      ∀ m ∈ pool, be.2 ≤ msgEta O m ploc hloc := by
  rcases findBestAmb_mem_val O ploc hloc pool none be h with h1 | h1
  · rcases h1 with ⟨m, hm, he⟩
    exact ⟨by rw [he]; exact hm, by rw [he], findBestAmb_min O ploc hloc pool none be h⟩
  · cases h1

theorem assignAmbLoop_count (O : Oracles) (hlocs : List (String × Loc))
    (hid : String) :
    ∀ (pas : List PAssign) (pool : List AmbMsg),
      (assignAmbLoop O hlocs pas pool).countP
          (fun a => decide (a.ambulance_id = hid))
        ≤ pool.countP (fun m => decide (m.agent_id = hid))
  | [], _ => by simp [assignAmbLoop]
  | pa :: rest, pool => by
      rw [assignAmbLoop]
      by_cases hemp : pool.isEmpty
      · simp [hemp]
      · simp only [hemp, Bool.false_eq_true, if_false]
        cases hfind : findBestAmb O pool pa.patient_location
            ((lookupA pa.assigned_hospital hlocs).getD (50, 50)) with
        | none => exact assignAmbLoop_count O hlocs hid rest pool
        | some be =>
            have hmem : be.1 ∈ pool := (findBestAmb_spec O pool _ _ be hfind).1
            have hperm : pool.Perm (be.1 :: pool.erase be.1) :=
              List.perm_cons_erase hmem
            by_cases hidm : be.1.agent_id = hid
            · rw [List.countP_cons_of_pos _ _ (by simp [hidm])]
              have hsplit : pool.countP (fun m => decide (m.agent_id = hid))
                  = (pool.erase be.1).countP (fun m => decide (m.agent_id = hid))
                    + 1 := by
                rw [hperm.countP_eq]
                rw [List.countP_cons_of_pos _ _ (by simp [hidm])]
              rw [hsplit]
              have := assignAmbLoop_count O hlocs hid rest (pool.erase be.1)
              omega
            · rw [List.countP_cons_of_neg _ _ (by simp [hidm])]
              have hle := assignAmbLoop_count O hlocs hid rest (pool.erase be.1)
              exact le_trans hle ((List.erase_sublist _ _).countP_le _)

theorem assignAmbLoop_mem (O : Oracles) (hlocs : List (String × Loc)) :
    ∀ (pas : List PAssign) (pool : List AmbMsg) (a : AAssign),
      a ∈ assignAmbLoop O hlocs pas pool →
      ∃ m ∈ pool, m.agent_id = a.ambulance_id
  | [], _, a, ha => by cases ha
  | pa :: rest, pool, a, ha => by
      rw [assignAmbLoop] at ha
      by_cases hemp : pool.isEmpty
      · simp [hemp] at ha
      · simp only [hemp, Bool.false_eq_true, if_false] at ha
        cases hfind : findBestAmb O pool pa.patient_location
            ((lookupA pa.assigned_hospital hlocs).getD (50, 50)) with
        | none =>
            rw [hfind] at ha
            exact assignAmbLoop_mem O hlocs rest pool a ha
        | some be =>
            rw [hfind] at ha
            rcases List.mem_cons.mp ha with h1 | h1
            · exact ⟨be.1, (findBestAmb_spec O pool _ _ be hfind).1, by simp [h1]⟩
            · rcases assignAmbLoop_mem O hlocs rest (pool.erase be.1) a h1 with
                ⟨m, hm, he⟩
              exact ⟨m, List.mem_of_mem_erase hm, he⟩

/-- C8 (amended): in each ambulance-assignment round, (a) per unit id the
number of assignments never exceeds the number of messages with that id in
the available pool (a chosen unit is removed from the pool, so no unit is
double-booked); (b) every chosen unit comes from the pool of messages with
`available_slots > 0` — the engine's *only* eligibility condition; and (c)
the selection step returns a unit of the pool minimizing the projected ETA
`(dist(unit, patient) + dist(patient, hospital)) / 40 km/h` computed from
the message's (defaulted) location. -/
theorem ambulance_assignment_pool_minimality (O : Oracles)
    (pas : List PAssign) (ambulances : List AmbMsg) (hospitals : List HospMsg)
    (hid : String) (pool : List AmbMsg) (ploc hloc : Loc) (be : AmbMsg × ℚ) :
    ((assignAmbulances O pas ambulances hospitals).countP
        (fun a => decide (a.ambulance_id = hid))
      ≤ (ambulances.filter (fun m => m.available_slots > 0)).countP
          (fun m => decide (m.agent_id = hid)))
    ∧ (∀ a ∈ assignAmbulances O pas ambulances hospitals,
        ∃ m ∈ ambulances, m.agent_id = a.ambulance_id ∧ m.available_slots > 0)
    ∧ (findBestAmb O pool ploc hloc = some be →
        be.1 ∈ pool ∧ be.2 = msgEta O be.1 ploc hloc ∧
          ∀ m ∈ pool, be.2 ≤ msgEta O m ploc hloc) := by
  refine ⟨assignAmbLoop_count O _ hid pas _, ?_, findBestAmb_spec O pool ploc hloc be⟩
  intro a ha
  rcases assignAmbLoop_mem O _ pas _ a ha with ⟨m, hm, he⟩
  rcases List.mem_filter.mp hm with ⟨hmem, hslots⟩
  exact ⟨m, hmem, he, by simpa using hslots⟩

/-- An ambulance message with a free slot but zero fuel (and, being a
message, no status or location at all). -/
def fuellessAmb : AmbMsg := ⟨"amb1", none, 1, 0⟩

/-- A patient assignment for the ambulance round. -/
def paSample : PAssign :=
  ⟨"p1", "high", (0, 0), "h1", "H1", 1, "Distance: 0km, Capacity: 1 beds"⟩

/-- Witness for `ambulance_assignment_pool_minimality` at the concrete
one-unit pool (discharging the selection hypothesis). -/
theorem ambulance_assignment_pool_minimality_witness :
    ((assignAmbulances Odefault [paSample] [fuellessAmb] []).countP
        (fun a => decide (a.ambulance_id = "amb1"))
      ≤ ([fuellessAmb].filter (fun m => m.available_slots > 0)).countP
          (fun m => decide (m.agent_id = "amb1")))
    ∧ fuellessAmb ∈ [fuellessAmb] := by
  refine ⟨(ambulance_assignment_pool_minimality Odefault [paSample] [fuellessAmb]
    [] "amb1" [fuellessAmb] (0, 0) (0, 0) (fuellessAmb, 0)).1, ?_⟩
  exact ((ambulance_assignment_pool_minimality Odefault [paSample] [fuellessAmb]
    [] "amb1" [fuellessAmb] (0, 0) (0, 0) (fuellessAmb, 0)).2.2 (by decide)).1

/-- C8 counterexample: a unit with `fuel_level = 0` (far below the 0.15
critical threshold — and with no `status` key in its message at all) is
chosen by `_assign_ambulances`, because the engine only filters on
`available_slots > 0`. -/
theorem ambulance_chosen_despite_empty_fuel :
    (assignAmbulances Odefault [paSample] [fuellessAmb] []).map
        (fun a => a.ambulance_id) = ["amb1"]
    ∧ fuellessAmb.fuel_level = 0 ∧ fuellessAmb.available_slots = 1 :=
  ⟨by decide, by decide, by decide⟩

/-!
## C9: initialization never validates (and never aborts)
-/

/-- A hospital configuration with an inconsistent capacity triple
(`available_beds = 5 > total_beds = 3`) and zero ICU capacity. -/
def badHospitalConfig : HConfig :=
  { id := "hospital_x", name := "Misconfigured Hospital", location := (0, 0),
    total_beds := 3, available_beds := 5, icu_beds := 0, icu_available := 0,
    oxygen_units := 0, doctors_on_duty := 0, patient_inflow_rate := 0 }

/-- A supply depot configuration. -/
def sampleSConfig : SConfig :=
  { id := "supply_depot", name := "Central Supply Depot", location := (50, 50),
    food_units := 500, water_units := 1000, oxygen_units := 200,
    medicine_units := 300, delivery_vehicles := 4 }

/-- A government configuration. -/
def sampleGConfig : GConfig :=
  { id := "gov_authority", disaster_severity := 0.5, fairness_weight := 0.7 }

/-- C9 (amended): `Simulator.initialize` performs no validation at all —
for every configuration (consistent or not) it constructs one hospital
agent per entry, stores the configured capacities verbatim, and
unconditionally starts the simulation (`running = True`); there is no
error return or abort path. -/
theorem initialize_never_aborts (hcfgs : List HConfig) (acfgs : List AConfig)
    (scfg : SConfig) (gcfg : GConfig) (ps : List WPatient) :
    (simInitialize hcfgs acfgs scfg gcfg ps).running = true
    ∧ (simInitialize hcfgs acfgs scfg gcfg ps).hospitals.length = hcfgs.length
    ∧ ∀ c ∈ hcfgs, ∃ h ∈ (simInitialize hcfgs acfgs scfg gcfg ps).hospitals,
        h.agent_id = c.id ∧ h.available_beds = c.available_beds
        ∧ h.total_beds = c.total_beds ∧ h.icu_available = c.icu_available
        ∧ h.icu_beds = c.icu_beds := by
  refine ⟨rfl, by simp [simInitialize], fun c hc => ?_⟩
  exact ⟨mkHospitalAgent c, List.mem_map.mpr ⟨c, hc, rfl⟩, rfl, rfl, rfl, rfl, rfl⟩

/-- Witness for `initialize_never_aborts` at the inconsistent
configuration. -/
theorem initialize_never_aborts_witness :
    ∃ h ∈ (simInitialize [badHospitalConfig] [] sampleSConfig sampleGConfig
        []).hospitals,
      h.agent_id = badHospitalConfig.id
      ∧ h.available_beds = badHospitalConfig.available_beds
      ∧ h.total_beds = badHospitalConfig.total_beds
      ∧ h.icu_available = badHospitalConfig.icu_available
      ∧ h.icu_beds = badHospitalConfig.icu_beds :=
  (initialize_never_aborts [badHospitalConfig] [] sampleSConfig sampleGConfig
    []).2.2 badHospitalConfig (by decide)

/-- C9 counterexample: initializing from a resource-holder configuration
with zero total (ICU) capacity and `available_beds > total_beds` does
*not* abort with an error — it produces a running simulation whose
hospital ledger carries the inconsistent triple. -/
theorem initialize_accepts_inconsistent_capacity :
    (simInitialize [badHospitalConfig] [] sampleSConfig sampleGConfig
      []).running = true
    ∧ (simInitialize [badHospitalConfig] [] sampleSConfig sampleGConfig
        []).hospitals.map (fun h => (h.available_beds, h.total_beds)) = [(5, 3)] :=
  ⟨rfl, by decide⟩

/-!
## C10: stepping a non-running simulator
-/

/-- An idle supply-depot state. -/
def idleSupply : SupplyA :=
  { agent_id := "supply_depot", name := "Central Supply Depot",
    location := (50, 50),
    inventory := [("food", 500), ("water", 1000), ("oxygen", 200),
                  ("medicine", 300)],
    delivery_vehicles := 4, vehicles_available := 4, active_deliveries := [],
    completed_deliveries := [], pending_requests := [] }

/-- A government agent state. -/
def sampleGov : GovernmentA :=
  { agent_id := "gov_authority", disaster_severity := 0.5,
    fairness_weight := 0.7 }

/-- A simulator state that is not running (as before `initialize` or after
`reset`). -/
def notRunningState : SimState :=
  { tick := 3, running := false, current_round := 2,
    hospitals := [sampleHospital], ambulances := [], supply := idleSupply,
    government := sampleGov, waiting_patients := [highPatient1],
    active_failures := [] }

/-- C10: calling `step` on a simulator that is not running returns the
error result and leaves the entire simulation state unchanged — the tick
is not incremented and no hospital, ambulance, depot or patient state is
mutated. -/
theorem step_not_running_noop (O : Oracles) (s : SimState)
    (inflow : List WPatient) (now : String) (h : s.running = false) :
    step O s inflow now = (s, StepOutcome.notRunning) := by
  rw [step]
  simp [h]

/-- Witness for `step_not_running_noop` at a concrete stopped simulator. -/
theorem step_not_running_noop_witness :
    step Odefault notRunningState [] "t1" = (notRunningState,
      StepOutcome.notRunning) :=
  step_not_running_noop Odefault notRunningState [] "t1" rfl

/-!
## C4: determinism of the step report up to wall-clock timestamps

`datetime.now()` reaches the step report in exactly two places: the
report's own `timestamp` field and the `timestamp` stamped into each
failure response; it also rides along in the supply state (each started
delivery's `started_at`), which never influences any report field.  The
lemmas below erase those clock stamps and show everything else is a pure
function of the state and inflow.
-/

/-- Erase the clock stamp of a delivery record. -/
def eraseDelivery (d : Delivery) : Delivery := { d with started_at := "" }

/-- Erase the clock stamps a supply state carries. -/
def eraseSupplyTimes (s : SupplyA) : SupplyA :=
  { s with active_deliveries := s.active_deliveries.map eraseDelivery,
           completed_deliveries := s.completed_deliveries.map eraseDelivery }

/-- Erase the clock stamp of a failure response. -/
def eraseResponseTime (r : FailResponse) : FailResponse := { r with timestamp := "" }

/-- Erase every clock stamp of a step report. -/
def eraseReportTime (r : StepReport) : StepReport :=
  { r with timestamp := "", alerts := r.alerts.map eraseResponseTime }

/-- Erase every clock stamp of a step outcome. -/
def eraseOutcomeTime : StepOutcome → StepOutcome
  | .report r => .report (eraseReportTime r)
  | o => o

theorem eraseSupplyTimes_inventory (s : SupplyA) :
    (eraseSupplyTimes s).inventory = s.inventory := rfl

theorem eraseSupplyTimes_vehicles (s : SupplyA) :
    (eraseSupplyTimes s).vehicles_available = s.vehicles_available := rfl

theorem eraseSupplyTimes_pending (s : SupplyA) :
    (eraseSupplyTimes s).pending_requests = s.pending_requests := rfl

theorem eraseSupplyTimes_location (s : SupplyA) :
    (eraseSupplyTimes s).location = s.location := rfl

theorem eraseSupplyTimes_active (s : SupplyA) :
    (eraseSupplyTimes s).active_deliveries
      = s.active_deliveries.map eraseDelivery := rfl

theorem eraseSupplyTimes_completed (s : SupplyA) :
    (eraseSupplyTimes s).completed_deliveries
      = s.completed_deliveries.map eraseDelivery := rfl

theorem eraseSupplyTimes_agent_id (s : SupplyA) :
    (eraseSupplyTimes s).agent_id = s.agent_id := rfl

theorem eraseSupplyTimes_name (s : SupplyA) :
    (eraseSupplyTimes s).name = s.name := rfl

theorem eraseSupplyTimes_dv (s : SupplyA) :
    (eraseSupplyTimes s).delivery_vehicles = s.delivery_vehicles := rfl

theorem allocateSupply_erase_congr (O : Oracles) (t1 t2 : String)
    (s1 s2 : SupplyA) (herase : eraseSupplyTimes s1 = eraseSupplyTimes s2)
    (ty : String) (q : Int) (dest : String) (dloc : Loc) :
    eraseSupplyTimes (s1.allocateSupply O t1 ty q dest dloc).1
      = eraseSupplyTimes (s2.allocateSupply O t2 ty q dest dloc).1
    ∧ (s1.allocateSupply O t1 ty q dest dloc).2.isSome
      = (s2.allocateSupply O t2 ty q dest dloc).2.isSome := by
  have hid : s1.agent_id = s2.agent_id := by
    rw [← eraseSupplyTimes_agent_id s1, ← eraseSupplyTimes_agent_id s2, herase]
  have hname : s1.name = s2.name := by
    rw [← eraseSupplyTimes_name s1, ← eraseSupplyTimes_name s2, herase]
  have hinv : s1.inventory = s2.inventory := by
    rw [← eraseSupplyTimes_inventory s1, ← eraseSupplyTimes_inventory s2, herase]
  have hveh : s1.vehicles_available = s2.vehicles_available := by
    rw [← eraseSupplyTimes_vehicles s1, ← eraseSupplyTimes_vehicles s2, herase]
  have hdv : s1.delivery_vehicles = s2.delivery_vehicles := by
    rw [← eraseSupplyTimes_dv s1, ← eraseSupplyTimes_dv s2, herase]
  have hloc : s1.location = s2.location := by
    rw [← eraseSupplyTimes_location s1, ← eraseSupplyTimes_location s2, herase]
  have hpend : s1.pending_requests = s2.pending_requests := by
    rw [← eraseSupplyTimes_pending s1, ← eraseSupplyTimes_pending s2, herase]
  have hact : s1.active_deliveries.map eraseDelivery
      = s2.active_deliveries.map eraseDelivery := by
    rw [← eraseSupplyTimes_active s1, ← eraseSupplyTimes_active s2, herase]
  have hcomp : s1.completed_deliveries.map eraseDelivery
      = s2.completed_deliveries.map eraseDelivery := by
    rw [← eraseSupplyTimes_completed s1, ← eraseSupplyTimes_completed s2, herase]
  have hlen : s1.active_deliveries.length = s2.active_deliveries.length := by
    have h := congrArg List.length hact
    simpa using h
  rw [SupplyA.allocateSupply, SupplyA.allocateSupply, ← hinv, ← hveh]
  by_cases hg : (lookupA ty s1.inventory).getD 0 < q ∨ ¬s1.vehicles_available > 0
  · simp only [hg, if_pos]
    exact ⟨herase, trivial⟩
  · simp only [hg, if_neg, not_false_iff]
    refine ⟨?_, rfl⟩
    simp only [eraseSupplyTimes, SupplyA.mk.injEq, List.map_append]
    refine ⟨hid, hname, hloc, trivial, hdv, trivial, ?_, hcomp, hpend⟩
    rw [hact]
    simp [eraseDelivery, hlen, hloc]

theorem processLoop_erase_congr (O : Oracles) (t1 t2 : String) :
    ∀ (reqs : List PendingReq) (s1 s2 : SupplyA),
      eraseSupplyTimes s1 = eraseSupplyTimes s2 →
      eraseSupplyTimes (SupplyA.processLoop O t1 reqs s1).1
        = eraseSupplyTimes (SupplyA.processLoop O t2 reqs s2).1
      ∧ (SupplyA.processLoop O t1 reqs s1).2.2
        = (SupplyA.processLoop O t2 reqs s2).2.2
  | [], s1, s2, herase => ⟨herase, rfl⟩
  | req :: rest, s1, s2, herase => by
      have hinv : s1.inventory = s2.inventory := by
        rw [← eraseSupplyTimes_inventory s1, ← eraseSupplyTimes_inventory s2,
          herase]
      have hveh : s1.vehicles_available = s2.vehicles_available := by
        rw [← eraseSupplyTimes_vehicles s1, ← eraseSupplyTimes_vehicles s2,
          herase]
      rw [SupplyA.processLoop, SupplyA.processLoop, ← hinv, ← hveh]
      by_cases hv : ¬s1.vehicles_available > 0
      · simp only [hv, if_pos]
        exact ⟨herase, rfl⟩
      · simp only [hv, if_neg, not_false_iff]
        by_cases hq : min req.quantity ((lookupA req.supply_type s1.inventory).getD 0) > 0
        · simp only [hq, if_pos]
          have halloc := allocateSupply_erase_congr O t1 t2 s1 s2 herase
            req.supply_type
            (min req.quantity ((lookupA req.supply_type s1.inventory).getD 0))
            req.requester_id req.requester_location
          cases h1 : (s1.allocateSupply O t1 req.supply_type
              (min req.quantity ((lookupA req.supply_type s1.inventory).getD 0))
              req.requester_id req.requester_location).2 with
          | none =>
              have h2 : (s2.allocateSupply O t2 req.supply_type
                  (min req.quantity ((lookupA req.supply_type s1.inventory).getD 0))
                  req.requester_id req.requester_location).2 = none := by
                have := halloc.2
                rw [h1] at this
                cases h2' : (s2.allocateSupply O t2 req.supply_type
                    (min req.quantity
                      ((lookupA req.supply_type s1.inventory).getD 0))
                    req.requester_id req.requester_location).2
                · rfl
                · rw [h2'] at this; simp at this
              rw [h2]
              exact processLoop_erase_congr O t1 t2 rest _ _ halloc.1
          | some d1 =>
              have h2 : ∃ d2, (s2.allocateSupply O t2 req.supply_type
                  (min req.quantity ((lookupA req.supply_type s1.inventory).getD 0))
                  req.requester_id req.requester_location).2 = some d2 := by
                have := halloc.2
                rw [h1] at this
                cases h2' : (s2.allocateSupply O t2 req.supply_type
                    (min req.quantity
                      ((lookupA req.supply_type s1.inventory).getD 0))
                    req.requester_id req.requester_location).2 with
                | none => rw [h2'] at this; simp at this
                | some d2 => exact ⟨d2, rfl⟩
              rcases h2 with ⟨d2, h2⟩
              rw [h2]
              have ih := processLoop_erase_congr O t1 t2 rest _ _ halloc.1
              exact ⟨ih.1, by rw [ih.2]⟩
        · simp only [hq, if_neg, not_false_iff]
          exact processLoop_erase_congr O t1 t2 rest s1 s2 herase

theorem eraseSupplyTimes_fields_eq {s1 s2 : SupplyA}
    (h : eraseSupplyTimes s1 = eraseSupplyTimes s2) :
    s1.agent_id = s2.agent_id ∧ s1.name = s2.name ∧ s1.location = s2.location
    ∧ s1.inventory = s2.inventory
    ∧ s1.delivery_vehicles = s2.delivery_vehicles
    ∧ s1.vehicles_available = s2.vehicles_available
    ∧ s1.active_deliveries.map eraseDelivery
        = s2.active_deliveries.map eraseDelivery
    ∧ s1.completed_deliveries.map eraseDelivery
        = s2.completed_deliveries.map eraseDelivery
    ∧ s1.pending_requests = s2.pending_requests := by
  simp only [eraseSupplyTimes, SupplyA.mk.injEq] at h
  exact h

theorem processPendingRequests_erase_congr (O : Oracles) (t1 t2 : String)
    (s : SupplyA) :
    eraseSupplyTimes (s.processPendingRequests O t1).1
      = eraseSupplyTimes (s.processPendingRequests O t2).1 := by
  have he := processLoop_erase_congr O t1 t2 s.pending_requests s s rfl
  obtain ⟨hid, hname, hloc, hinv, hdv, hveh, hact, hcomp, hpend⟩ :=
    eraseSupplyTimes_fields_eq he.1
  rw [SupplyA.processPendingRequests, SupplyA.processPendingRequests]
  simp only [eraseSupplyTimes, SupplyA.mk.injEq]
  exact ⟨hid, hname, hloc, hinv, hdv, hveh, hact, hcomp, by rw [he.2, hpend]⟩

theorem filter_map_erase_congr (p : Delivery → Bool)
    (hp : ∀ d, p (eraseDelivery d) = p d) :
    ∀ (l1 l2 : List Delivery), l1.map eraseDelivery = l2.map eraseDelivery →
      (l1.filter p).map eraseDelivery = (l2.filter p).map eraseDelivery
  | [], [], _ => rfl
  | [], _ :: _, h => by simp at h
  | _ :: _, [], h => by simp at h
  | d1 :: l1, d2 :: l2, h => by
      simp only [List.map_cons, List.cons.injEq] at h
      have hpd : p d1 = p d2 := by rw [← hp d1, ← hp d2, h.1]
      by_cases hp1 : p d1
      · rw [List.filter_cons_of_pos hp1,
          List.filter_cons_of_pos (by rw [← hpd]; exact hp1)]
        simp only [List.map_cons, List.cons.injEq]
        exact ⟨h.1, filter_map_erase_congr p hp l1 l2 h.2⟩
      · rw [List.filter_cons_of_neg (by simpa using hp1),
          List.filter_cons_of_neg (by rw [← hpd] at *; simpa using hp1)]
        exact filter_map_erase_congr p hp l1 l2 h.2

theorem supplyUpdate_erase_congr (s1 s2 : SupplyA)
    (herase : eraseSupplyTimes s1 = eraseSupplyTimes s2) :
    eraseSupplyTimes s1.update = eraseSupplyTimes s2.update := by
  obtain ⟨hid, hname, hloc, hinv, hdv, hveh, hact, hcomp, hpend⟩ :=
    eraseSupplyTimes_fields_eq herase
  have hcomm : (eraseDelivery ∘ fun d : Delivery =>
      { d with eta_minutes := max 0 (d.eta_minutes - 5) })
      = ((fun d : Delivery => { d with eta_minutes := max 0 (d.eta_minutes - 5) })
        ∘ eraseDelivery) := by
    funext d; rfl
  have hticked : (s1.active_deliveries.map (fun d =>
      { d with eta_minutes := max 0 (d.eta_minutes - 5) })).map eraseDelivery
      = (s2.active_deliveries.map (fun d =>
      { d with eta_minutes := max 0 (d.eta_minutes - 5) })).map eraseDelivery := by
    rw [List.map_map, List.map_map, hcomm, ← List.map_map, ← List.map_map, hact]
  have hfneg := filter_map_erase_congr
    (fun d => decide ¬d.eta_minutes ≤ 0) (fun d => rfl) _ _ hticked
  have hfpos := filter_map_erase_congr
    (fun d => decide (d.eta_minutes ≤ 0)) (fun d => rfl) _ _ hticked
  have hmccomm : (eraseDelivery ∘ fun d : Delivery => { d with status := "completed" })
      = ((fun d : Delivery => { d with status := "completed" }) ∘ eraseDelivery) := by
    funext d; rfl
  have hfposmc : (((s1.active_deliveries.map (fun d =>
      { d with eta_minutes := max 0 (d.eta_minutes - 5) })).filter
        (fun d => decide (d.eta_minutes ≤ 0))).map
        (fun d => { d with status := "completed" })).map eraseDelivery
      = (((s2.active_deliveries.map (fun d =>
      { d with eta_minutes := max 0 (d.eta_minutes - 5) })).filter
        (fun d => decide (d.eta_minutes ≤ 0))).map
        (fun d => { d with status := "completed" })).map eraseDelivery := by
    rw [List.map_map, List.map_map, hmccomm, ← List.map_map, ← List.map_map, hfpos]
  have hflen : ((s1.active_deliveries.map (fun d =>
      { d with eta_minutes := max 0 (d.eta_minutes - 5) })).filter
        (fun d => decide (d.eta_minutes ≤ 0))).length
      = ((s2.active_deliveries.map (fun d =>
      { d with eta_minutes := max 0 (d.eta_minutes - 5) })).filter
        (fun d => decide (d.eta_minutes ≤ 0))).length := by
    have h := congrArg List.length hfpos
    simpa using h
  rw [SupplyA.update, SupplyA.update]
  simp only [eraseSupplyTimes, SupplyA.mk.injEq, List.map_append]
  refine ⟨hid, hname, hloc, hinv, hdv, ?_, ?_, ?_, hpend⟩
  · rw [hveh]
    have h := congrArg List.length hfposmc
    simpa using h
  · exact hfneg
  · rw [hcomp, hfposmc]

theorem anyMapComp (f : α → β) (p : β → Bool) :
    ∀ l : List α, (l.map f).any p = l.any (fun a => p (f a))
  | [] => rfl
  | a :: l => by simp [anyMapComp f p l]

theorem handleNewFailures_erase_congr :
    ∀ (fs : List Failure) (t1 t2 : String) (a1 a2 : List ActiveFailure),
      a1.map (fun af => af.ftype) = a2.map (fun af => af.ftype) →
      (handleNewFailures t1 fs a1).2.map eraseResponseTime
        = (handleNewFailures t2 fs a2).2.map eraseResponseTime
  | [], _, _, _, _, _ => rfl
  | f :: rest, t1, t2, a1, a2, h => by
      have hany : a1.any (fun af => af.ftype = f.ftype)
          = a2.any (fun af => af.ftype = f.ftype) := by
        have h1 := anyMapComp (fun af : ActiveFailure => af.ftype)
          (fun t => decide (t = f.ftype)) a1
        have h2 := anyMapComp (fun af : ActiveFailure => af.ftype)
          (fun t => decide (t = f.ftype)) a2
        rw [← h1, ← h2, h]
      by_cases hact : a1.any (fun af => af.ftype = f.ftype) = true
      · rw [handleNewFailures, handleNewFailures, if_pos hact,
          if_pos (by rw [← hany]; exact hact)]
        exact handleNewFailures_erase_congr rest t1 t2 a1 a2 h
      · rw [handleNewFailures, handleNewFailures, if_neg hact,
          if_neg (by rw [← hany]; exact hact)]
        show ((handleFailure t1 f).1 :: (handleNewFailures t1 rest
            (a1 ++ [(handleFailure t1 f).2])).2).map eraseResponseTime
          = ((handleFailure t2 f).1 :: (handleNewFailures t2 rest
            (a2 ++ [(handleFailure t2 f).2])).2).map eraseResponseTime
        simp only [List.map_cons, List.cons.injEq]
        refine ⟨rfl, ?_⟩
        refine handleNewFailures_erase_congr rest t1 t2 _ _ ?_
        simp only [List.map_append, h]
        rfl

/-- The alert lists of two step invocations differing only in the clock
are equal after erasing their timestamps: the depot inventory the failure
detector reads is clock-independent. -/
theorem stepAlerts_erase_congr (O : Oracles) (t1 t2 : String)
    (active : List ActiveFailure) (hv : List (String × HView))
    (av : List (String × AView)) (Q : SupplyA) :
    (checkAndHandleFailures t1 active hv av
        ⟨((Q.processPendingRequests O t1).1.update).inventory⟩).2.map
        eraseResponseTime
    = (checkAndHandleFailures t2 active hv av
        ⟨((Q.processPendingRequests O t2).1.update).inventory⟩).2.map
        eraseResponseTime := by
  have hinv : ((Q.processPendingRequests O t1).1.update).inventory
      = ((Q.processPendingRequests O t2).1.update).inventory :=
    (eraseSupplyTimes_fields_eq (supplyUpdate_erase_congr _ _
      (processPendingRequests_erase_congr O t1 t2 Q))).2.2.2.1
  rw [checkAndHandleFailures, checkAndHandleFailures, hinv]
  exact handleNewFailures_erase_congr _ t1 t2 active active rfl

theorem stepOkBranch_erase_congr (O : Oracles) (s : SimState)
    (tick' round' : Nat) (waiting : List WPatient) (nr1 nr2 : RoundResult)
    (t1 t2 : String)
    (hamb : nr1.ambulance_assignments = nr2.ambulance_assignments)
    (hsup : nr1.supply_allocations = nr2.supply_allocations)
    (hdec : nr1.decisions_explained = nr2.decisions_explained) :
    eraseOutcomeTime (stepOkBranch O s tick' round' waiting nr1 t1).2
      = eraseOutcomeTime (stepOkBranch O s tick' round' waiting nr2 t2).2 := by
  simp only [stepOkBranch]
  rw [hamb, hsup, hdec]
  simp only [eraseOutcomeTime, eraseReportTime, StepOutcome.report.injEq,
    StepReport.mk.injEq, true_and, and_true]
  exact stepAlerts_erase_congr O t1 t2 s.active_failures _ _ _

/-- C4 (amended): two `step` invocations from identical simulator state
with identical patient inflow produce step reports that agree on the tick,
the committed actions, the decisions, and on the alerts *after erasing the
wall-clock timestamp stamped into each alert* (and the report's own
timestamp field); crash and not-running outcomes agree exactly.  The only
report ingredients that depend on the invocation time are these clock
stamps. -/
theorem step_report_deterministic_up_to_timestamps (O : Oracles)
    (s : SimState) (inflow : List WPatient) (t1 t2 : String) :
    eraseOutcomeTime (step O s inflow t1).2
      = eraseOutcomeTime (step O s inflow t2).2 := by
  simp only [step, runNegotiation]
  split_ifs <;>
    first
    | rfl
    | exact stepOkBranch_erase_congr O s (s.tick + 1) (s.current_round + 1) _
        _ _ t1 t2 rfl rfl rfl

/-- An empty-but-running simulator state: no hospitals, no ambulances, an
empty depot and no waiting patients. -/
def emptyRunningState : SimState :=
  { tick := 0, running := true, current_round := 0, hospitals := [],
    ambulances := [],
    supply := { agent_id := "supply_depot", name := "Depot", location := (0, 0),
                inventory := [], delivery_vehicles := 0, vehicles_available := 0,
                active_deliveries := [], completed_deliveries := [],
                pending_requests := [] },
    government := sampleGov, waiting_patients := [], active_failures := [] }

/-- C4 counterexample: two `step` invocations from the *identical* state,
pending-request set, waiting-patient set and policy input, differing only
in the wall clock, produce *different* step reports: every alert embeds
`datetime.now()` (`FailureHandler.handle_failure`), so the reports are not
identical. -/
theorem step_reports_differ_across_clock_readings :
    (step Odefault emptyRunningState [] "2026-01-01T00:00:00").2
      ≠ (step Odefault emptyRunningState [] "2026-01-01T00:00:05").2 := by
  decide

end SAVE
